import Mathlib

/-!
Verification development for the ExtraMarkups shape-markup core
(`Shape/MRML/vtkMRMLMarkupsShapeNode.cxx`).

The geometric core is embedded shallowly: 3D points are triples of real
numbers, the control point store is a list of control points (position plus
a "defined" flag), and every method of `vtkMRMLMarkupsShapeNode` relevant to
the claims is translated into a pure function on a `ShapeNode` state.
Mutating methods return the new state together with a `Bool` that records
whether an error/early-return path was taken (`true` = the call failed and
aborted before completing its mutation).

Machine `double`s are modelled as real numbers; `std::sqrt` is `Real.sqrt`.
-/

namespace ExtraMarkups

/-- A 3D world-coordinate point (a C `double[3]`). -/
@[ext]
structure Vec3 where
  x : ℝ
  y : ℝ
  z : ℝ

/-- One control point of the external control point store: a position and a
"defined" flag (`vtkMRMLMarkupsNode::ControlPoint` position status, collapsed
to defined / undefined). -/
structure ControlPoint where
  position : Vec3
  defined : Bool

/-- One measurement declaration, as produced by the `Force*Measurements`
methods: name, units, display coefficient, print format and default
enabled state. The display coefficient is kept as a rational (it is only a
display scale factor, never used in geometry). -/
structure MeasurementDef where
  name : String
  units : String
  displayCoefficient : ℚ
  printFormat : String
  enabled : Bool
deriving DecidableEq

/-- The state of one `vtkMRMLMarkupsShapeNode` instance together with the
parts of its collaborators the claims need: the control point store, the
measurement list, and whether a reslice node is attached. -/
structure ShapeNode where
  shapeName : ℤ
  requiredNumberOfControlPoints : ℤ
  maximumNumberOfControlPoints : ℤ
  radiusMode : ℤ
  measurements : List MeasurementDef
  controlPoints : List ControlPoint
  removingPairControlPoint : Bool
  resliceNodeSet : Bool

/-- Modelled from the spec: shape kind `Sphere` of the enum in the (header)
file `vtkMRMLMarkupsShapeNode.h`, which is not among the provided sources;
the spec fixes the kinds as `Sphere | Ring | Disk | Tube`. The concrete
numbering is irrelevant to every claim. -/
def Sphere : ℤ := 0

/-- Modelled from the spec: shape kind `Ring` (see `Sphere`). -/
def Ring : ℤ := 1

/-- Modelled from the spec: shape kind `Disk` (see `Sphere`). -/
def Disk : ℤ := 2

/-- Modelled from the spec: shape kind `Tube` (see `Sphere`). -/
def Tube : ℤ := 3

/-- Radius mode `Centered` (value 0, as in the sibling ring node header). -/
def Centered : ℤ := 0

/-- Radius mode `Circumferential` (value 1). -/
def Circumferential : ℤ := 1

/-- `GetNumberOfControlPoints` of the store collaborator. -/
def getNumberOfControlPoints (s : ShapeNode) : ℕ :=
  s.controlPoints.length

/-- `GetNumberOfDefinedControlPoints` of the store collaborator (the model
does not distinguish preview points, so the `includePreview` flag of the
source call sites is immaterial). -/
def getNumberOfDefinedControlPoints (s : ShapeNode) : ℕ :=
  s.controlPoints.countP (fun cp => cp.defined)

/-- `GetNumberOfUndefinedControlPoints` of the store collaborator. -/
def getNumberOfUndefinedControlPoints (s : ShapeNode) : ℕ :=
  s.controlPoints.countP (fun cp => !cp.defined)

/-- Out-of-range reads of `GetNthControlPointPositionWorld` leave the
caller's zero-initialised `double[3]` untouched, so the default is the
origin (with an arbitrary flag, never read). -/
def defaultControlPoint : ControlPoint :=
  ⟨⟨0, 0, 0⟩, true⟩

/-- Position of the `n`-th point of a raw store list. -/
def posAt (l : List ControlPoint) (n : ℕ) : Vec3 :=
  (l.getD n defaultControlPoint).position

/-- `GetNthControlPointPositionWorld`. -/
def getNthControlPointPositionWorld (s : ShapeNode) (n : ℕ) : Vec3 :=
  posAt s.controlPoints n

/-- Replace the position of the `n`-th point, keeping its flag; out of
range is a no-op (the collaborator logs and returns). -/
def setPosAux : List ControlPoint → ℕ → Vec3 → List ControlPoint
  | [], _, _ => []
  | cp :: tl, 0, p => ⟨p, cp.defined⟩ :: tl
  | cp :: tl, Nat.succ n, p => cp :: setPosAux tl n p

/-- `SetNthControlPointPositionWorld`. -/
def setNthControlPointPositionWorld (s : ShapeNode) (n : ℕ) (p : Vec3) : ShapeNode :=
  { s with controlPoints := setPosAux s.controlPoints n p }

/-- `vtkMath::Distance2BetweenPoints`: squared Euclidean distance. -/
def distance2BetweenPoints (p q : Vec3) : ℝ :=
  (p.x - q.x) ^ 2 + (p.y - q.y) ^ 2 + (p.z - q.z) ^ 2

/-- `std::sqrt(vtkMath::Distance2BetweenPoints(p, q))`. -/
noncomputable def distanceBetweenPoints (p q : Vec3) : ℝ :=
  Real.sqrt (distance2BetweenPoints p q)

/-- `vtkMath::Cross`. -/
def crossProduct (a b : Vec3) : Vec3 :=
  ⟨a.y * b.z - a.z * b.y, a.z * b.x - a.x * b.z, a.x * b.y - a.y * b.x⟩

/-- Componentwise difference (the source writes it out inline). -/
def vecSub (a b : Vec3) : Vec3 :=
  ⟨a.x - b.x, a.y - b.y, a.z - b.z⟩

/-- Midpoint of two points (the source writes it out inline). -/
noncomputable def midPoint (p q : Vec3) : Vec3 :=
  ⟨(p.x + q.x) / 2, (p.y + q.y) / 2, (p.z + q.z) / 2⟩

/-- `vtkMRMLMarkupsShapeNode::FindLinearCoordinateByDistance`: the point on
the ray `p1 → p2` at distance `|p1,p2| + difference` from `p1`.
The source does not guard `p1 = p2`; real division by zero is total (`= 0`)
in this embedding. -/
noncomputable def findLinearCoordinateByDistance (p1 p2 : Vec3) (difference : ℝ) : Vec3 :=
  let rp2 : Vec3 := vecSub p2 p1
  let lineLength := distanceBetweenPoints p1 p2
  let factor := 1 + difference / lineLength
  ⟨p1.x + rp2.x * factor, p1.y + rp2.y * factor, p1.z + rp2.z * factor⟩

/-- The shared print format string of every measurement in the source. -/
def shapeFmt : String := "%-#4.4g%s"

/-- `ForceSphereMeasurements`: replaces the measurement list. -/
def forceSphereMeasurements (s : ShapeNode) : ShapeNode :=
  { s with measurements :=
      [⟨"radius", "mm", 1, shapeFmt, true⟩,
       ⟨"area", "cm2", 1/100, shapeFmt, false⟩,
       ⟨"volume", "cm3", 1/100, shapeFmt, false⟩] }

/-- `ForceRingMeasurements`. -/
def forceRingMeasurements (s : ShapeNode) : ShapeNode :=
  { s with measurements :=
      [⟨"radius", "mm", 1, shapeFmt, true⟩,
       ⟨"area", "cm2", 1/100, shapeFmt, false⟩] }

/-- `ForceDiskMeasurements`. -/
def forceDiskMeasurements (s : ShapeNode) : ShapeNode :=
  { s with measurements :=
      [⟨"innerRadius", "mm", 1, shapeFmt, true⟩,
       ⟨"outerRadius", "mm", 1, shapeFmt, true⟩,
       ⟨"width", "mm", 1, shapeFmt, false⟩,
       ⟨"area", "cm2", 1/100, shapeFmt, false⟩,
       ⟨"innerArea", "cm2", 1/100, shapeFmt, false⟩,
       ⟨"outerArea", "cm2", 1/100, shapeFmt, false⟩] }

/-- `ForceTubeMeasurements`. -/
def forceTubeMeasurements (s : ShapeNode) : ShapeNode :=
  { s with measurements :=
      [⟨"area", "cm2", 1/100, shapeFmt, false⟩,
       ⟨"volume", "cm3", 1/100, shapeFmt, true⟩] }

/-- The truncation block at the end of `SetShapeName`: while the store holds
more than `MaximumNumberOfControlPoints` points the point at index
`MaximumNumberOfControlPoints` is removed — i.e. the first
`MaximumNumberOfControlPoints` points are kept; with a non-positive maximum
the store is cleared. -/
def clampControlPoints (s : ShapeNode) : ShapeNode :=
  if 0 < s.maximumNumberOfControlPoints then
    { s with controlPoints := s.controlPoints.take s.maximumNumberOfControlPoints.toNat }
  else
    { s with controlPoints := [] }

/-- `vtkMRMLMarkupsShapeNode::SetShapeName`. Faithful to the source,
including two of its quirks: `ShapeName` is assigned *before* the switch
validates the kind, and the `case Tube:` branch has no `break`, so it falls
through into `default:` (`vtkErrorMacro("Unknown shape."); return;`) and
returns before the truncation block runs. The `Bool` is `true` when the
`default:` error path executed. -/
def setShapeName (s0 : ShapeNode) (shapeName : ℤ) : ShapeNode × Bool :=
  let s := { s0 with shapeName := shapeName }
  if shapeName = Sphere then
    (clampControlPoints (forceSphereMeasurements
      { s with requiredNumberOfControlPoints := 2, maximumNumberOfControlPoints := 2 }), false)
  else if shapeName = Ring then
    (clampControlPoints (forceRingMeasurements
      { s with requiredNumberOfControlPoints := 3, maximumNumberOfControlPoints := 3 }), false)
  else if shapeName = Disk then
    (clampControlPoints (forceDiskMeasurements
      { s with requiredNumberOfControlPoints := 3, maximumNumberOfControlPoints := 3 }), false)
  else if shapeName = Tube then
    -- fall-through: counts and measurements are set, then `default:` returns.
    (forceTubeMeasurements
      { s with requiredNumberOfControlPoints := -1, maximumNumberOfControlPoints := -1 }, true)
  else
    (s, true)

/-- `vtkMRMLMarkupsShapeNode::DescribeDiskPointSpacing`: on a `Disk` with
exactly 3 defined points, returns `(closestPoint, farthestPoint,
innerRadius, outerRadius)`; otherwise `none` (the source returns `false`). -/
noncomputable def describeDiskPointSpacing (s : ShapeNode) :
    Option (Vec3 × Vec3 × ℝ × ℝ) :=
  if s.shapeName ≠ Disk then none
  else if getNumberOfDefinedControlPoints s ≠ 3 then none
  else
    let p1 := getNthControlPointPositionWorld s 0
    let p2 := getNthControlPointPositionWorld s 1
    let p3 := getNthControlPointPositionWorld s 2
    let distance2 := distanceBetweenPoints p1 p2
    let distance3 := distanceBetweenPoints p1 p3
    if distance2 ≤ distance3 then some (p2, p3, distance2, distance3)
    else some (p3, p2, distance3, distance2)

/-- `vtkMRMLMarkupsShapeNode::SetRadius`. The `Bool` is `true` on the two
error paths (`Disk` shape, non-positive radius). Point 1 is moved along the
ray `p0 → p1`; in `Circumferential` mode point 0 is additionally moved along
`p1 → p0` (both shifts computed from the pre-mutation positions, as in the
source, which caches `rasP1`/`rasP2` first). -/
noncomputable def setRadius (s : ShapeNode) (radius : ℝ) : ShapeNode × Bool :=
  if s.shapeName = Disk then (s, true)
  else if radius ≤ 0 then (s, true)
  else
    let rasP1 := getNthControlPointPositionWorld s 0
    let rasP2 := getNthControlPointPositionWorld s 1
    let lineLength := distanceBetweenPoints rasP1 rasP2
    let currentRadius := if s.radiusMode = Centered then lineLength else lineLength / 2
    let difference := radius - currentRadius
    let rasP2Shifted := findLinearCoordinateByDistance rasP1 rasP2 difference
    let s1 := setNthControlPointPositionWorld s 1 rasP2Shifted
    if s.radiusMode = Circumferential then
      (setNthControlPointPositionWorld s1 0
        (findLinearCoordinateByDistance rasP2 rasP1 difference), false)
    else
      (s1, false)

/-- Modelled from the spec: `vtkMRMLMarkupsNode::GetClosestControlPointIndexToPositionWorld`
of the store collaborator (not part of this repository): scan of all control
points keeping the first index whose squared distance to the target is
strictly smaller than the best so far (first index wins ties); `-1` on an
empty store. -/
noncomputable def closestFrom (v : Vec3) :
    List ControlPoint → ℕ → ℤ → ℝ → ℤ
  | [], _, best, _ => best
  | cp :: tl, i, best, bestD =>
    if distance2BetweenPoints cp.position v < bestD then
      closestFrom v tl (i + 1) (i : ℤ) (distance2BetweenPoints cp.position v)
    else
      closestFrom v tl (i + 1) best bestD

/-- See `closestFrom`. -/
noncomputable def getClosestControlPointIndexToPositionWorld (s : ShapeNode) (v : Vec3) : ℤ :=
  match s.controlPoints with
  | [] => -1
  | cp :: tl => closestFrom v tl 1 0 (distance2BetweenPoints cp.position v)

/-- `vtkMRMLMarkupsShapeNode::SetInnerRadius`. Error (`true`) paths: wrong
shape, non-positive radius, `DescribeDiskPointSpacing` failure, and
`radius >= outerRadius`. On success, the control point closest to the
disk's closest point is moved along the ray from the center by
`radius - innerRadius`. -/
noncomputable def setInnerRadius (s : ShapeNode) (radius : ℝ) : ShapeNode × Bool :=
  if s.shapeName ≠ Disk then (s, true)
  else if radius ≤ 0 then (s, true)
  else
    match describeDiskPointSpacing s with
    | none => (s, true)
    | some (closestPoint, _, innerRadius, outerRadius) =>
      if outerRadius ≤ radius then (s, true)
      else
        let rasP1 := getNthControlPointPositionWorld s 0
        let difference := radius - innerRadius
        let closestPointShifted := findLinearCoordinateByDistance rasP1 closestPoint difference
        (setNthControlPointPositionWorld s
          (getClosestControlPointIndexToPositionWorld s closestPoint).toNat
          closestPointShifted, false)

/-- `vtkMRMLMarkupsShapeNode::SetOuterRadius`. Symmetric to
`setInnerRadius`, failing when `radius <= innerRadius`, moving the farthest
point. -/
noncomputable def setOuterRadius (s : ShapeNode) (radius : ℝ) : ShapeNode × Bool :=
  if s.shapeName ≠ Disk then (s, true)
  else if radius ≤ 0 then (s, true)
  else
    match describeDiskPointSpacing s with
    | none => (s, true)
    | some (_, farthestPoint, innerRadius, outerRadius) =>
      if radius ≤ innerRadius then (s, true)
      else
        let rasP1 := getNthControlPointPositionWorld s 0
        let difference := radius - outerRadius
        let farthestPointShifted := findLinearCoordinateByDistance rasP1 farthestPoint difference
        (setNthControlPointPositionWorld s
          (getClosestControlPointIndexToPositionWorld s farthestPoint).toNat
          farthestPointShifted, false)

/-- `vtkMRMLMarkupsShapeNode::ResliceToLine` (used for `Sphere`): the
absolute position vectors of points 0 and 1 are crossed — *not* centered —
and pushed with reference points `(p1, p0)`; no-op (`none`) without a
reslice node or when the cross product vanishes. -/
noncomputable def resliceToLine (s : ShapeNode) : Option (Vec3 × Vec3 × Vec3) :=
  if s.resliceNodeSet = false then none
  else
    let rasP1 := getNthControlPointPositionWorld s 0
    let rasP2 := getNthControlPointPositionWorld s 1
    let rasNormal := crossProduct rasP1 rasP2
    if rasNormal.x = 0 ∧ rasNormal.y = 0 ∧ rasNormal.z = 0 then none
    else some (rasNormal, rasP2, rasP1)

/-- `vtkMRMLMarkupsShapeNode::ResliceToPlane` (used for `Ring`/`Disk`):
cross product of the two point vectors relative to point 0. -/
noncomputable def resliceToPlane (s : ShapeNode) : Option (Vec3 × Vec3 × Vec3) :=
  if s.resliceNodeSet = false then none
  else
    let rasP1 := getNthControlPointPositionWorld s 0
    let rasP2 := getNthControlPointPositionWorld s 1
    let rasP3 := getNthControlPointPositionWorld s 2
    let rasNormal := crossProduct (vecSub rasP2 rasP1) (vecSub rasP3 rasP1)
    if rasNormal.x = 0 ∧ rasNormal.y = 0 ∧ rasNormal.z = 0 then none
    else some (rasNormal, rasP2, rasP1)

/-- `vtkMRMLMarkupsShapeNode::ResliceToControlPoints`: dispatch on the shape
kind; `Tube` (explicit empty case) and unknown kinds (error) are no-ops. -/
noncomputable def resliceToControlPoints (s : ShapeNode) : Option (Vec3 × Vec3 × Vec3) :=
  if s.shapeName = Sphere then resliceToLine s
  else if s.shapeName = Ring then resliceToPlane s
  else if s.shapeName = Disk then resliceToPlane s
  else none

/-- `vtkMRMLMarkupsShapeNode::OnPointPositionUndefined`, as one synchronous
delivery of the `PointPositionUndefinedEvent` with `callData = removedIndex`
(the host removed that point just before delivering). The nested
`RemoveNthControlPoint` is the store's plain removal; the notification it
itself fires is a further top-level delivery of this same function. -/
def onPointPositionUndefined (s : ShapeNode) (removedIndex : ℕ) : ShapeNode :=
  if s.shapeName ≠ Tube ∨ 0 < getNumberOfUndefinedControlPoints s then s
  else if s.removingPairControlPoint ∨ getNumberOfControlPoints s = 0 then
    { s with removingPairControlPoint := false }
  else if removedIndex % 2 = 0 then
    if removedIndex < getNumberOfControlPoints s then
      { s with removingPairControlPoint := true,
               controlPoints := s.controlPoints.eraseIdx removedIndex }
    else
      { s with removingPairControlPoint := false }
  else
    { s with removingPairControlPoint := true,
             controlPoints := s.controlPoints.eraseIdx (removedIndex - 1) }

/-- `vtkMRMLMarkupsShapeNode::GetRadiusAtNthControlPoint`. Every failure
returns the sentinel `-1.0`; success returns half the distance between the
two points of the pair containing `n`. -/
noncomputable def getRadiusAtNthControlPoint (s : ShapeNode) (n : ℤ) : ℝ :=
  if s.shapeName ≠ Tube then -1
  else if n < 0 ∨ 0 < getNumberOfUndefinedControlPoints s
      ∨ getNumberOfDefinedControlPoints s < 4
      ∨ getNumberOfDefinedControlPoints s % 2 ≠ 0
      ∨ (getNumberOfDefinedControlPoints s : ℤ) ≤ n then -1
  else
    let p1 := if n % 2 = 0 then getNthControlPointPositionWorld s n.toNat
              else getNthControlPointPositionWorld s (n.toNat - 1)
    let p2 := if n % 2 = 0 then getNthControlPointPositionWorld s (n.toNat + 1)
              else getNthControlPointPositionWorld s n.toNat
    distanceBetweenPoints p1 p2 / 2

/-- `vtkMRMLMarkupsShapeNode::SetRadiusAtNthControlPoint`. Aborts (`true`)
when the requested radius is non-positive or the current radius query does
not return a positive value; otherwise repositions both pair points
symmetrically about their midpoint. -/
noncomputable def setRadiusAtNthControlPoint (s : ShapeNode) (n : ℤ) (radius : ℝ) :
    ShapeNode × Bool :=
  if radius ≤ 0 then (s, true)
  else
    let currentRadius := getRadiusAtNthControlPoint s n
    if currentRadius ≤ 0 then (s, true)
    else
      let p1 := if n % 2 = 0 then getNthControlPointPositionWorld s n.toNat
                else getNthControlPointPositionWorld s (n.toNat - 1)
      let p2 := if n % 2 = 0 then getNthControlPointPositionWorld s (n.toNat + 1)
                else getNthControlPointPositionWorld s n.toNat
      let middlePoint := midPoint p1 p2
      let radiusDifference := radius - currentRadius
      let p1New := findLinearCoordinateByDistance middlePoint p1 radiusDifference
      let p2New := findLinearCoordinateByDistance middlePoint p2 radiusDifference
      if n % 2 = 0 then
        (setNthControlPointPositionWorld
          (setNthControlPointPositionWorld s n.toNat p1New) (n.toNat + 1) p2New, false)
      else
        (setNthControlPointPositionWorld
          (setNthControlPointPositionWorld s n.toNat p2New) (n.toNat - 1) p1New, false)

/-- The point at parameter `t` on the affine line from `p` (at `t = 0`) to
`q` (at `t = 1`); used only in proofs to reason about the source's
ray-offset computation. -/
noncomputable def linePoint (p q : Vec3) (t : ℝ) : Vec3 :=
  ⟨p.x + t * (q.x - p.x), p.y + t * (q.y - p.y), p.z + t * (q.z - p.z)⟩

/-- Projection of a `DescribeDiskPointSpacing` result onto its
`(innerRadius, outerRadius)` pair. -/
def diskRadii : Option (Vec3 × Vec3 × ℝ × ℝ) → Option (ℝ × ℝ)
  | none => none
  | some (_, _, innerR, outerR) => some (innerR, outerR)

/-- A fresh sphere-kind node with an empty store (used as a concrete
instance for the `SetShapeKind` claims). -/
def c2node : ShapeNode :=
  ⟨Sphere, 2, 2, Centered, [], [], false, false⟩

/-- A tube node holding six defined control points (used as the concrete
instance for the tube pairing claims). -/
def c4tube : ShapeNode :=
  ⟨Tube, -1, -1, Centered, [], List.replicate 6 ⟨⟨0, 0, 0⟩, true⟩, false, false⟩

/-- A disk node whose two non-center points are equidistant from the center
(used as the concrete instance for the disk spacing claims). -/
def c8disk : ShapeNode :=
  ⟨Disk, 3, 3, Centered, [],
    [⟨⟨0, 0, 0⟩, true⟩, ⟨⟨1, 0, 0⟩, true⟩, ⟨⟨0, 1, 0⟩, true⟩], false, false⟩

/-- A disk node with inner radius 1 and outer radius 3 along the x-axis
(used as the concrete instance for the disk radius-ordering claim). -/
def c3disk : ShapeNode :=
  ⟨Disk, 3, 3, Centered, [],
    [⟨⟨0, 0, 0⟩, true⟩, ⟨⟨1, 0, 0⟩, true⟩, ⟨⟨3, 0, 0⟩, true⟩], false, false⟩

/-- A fully degenerate disk node: all three control points coincide (used
as the concrete counterexample instance for the disk ordering claim). -/
def c3degenerate : ShapeNode :=
  ⟨Disk, 3, 3, Centered, [],
    [⟨⟨0, 0, 0⟩, true⟩, ⟨⟨0, 0, 0⟩, true⟩, ⟨⟨0, 0, 0⟩, true⟩], false, false⟩

/-- A sphere node with points `(0,0,0)` and `(10,0,0)` in `Centered` mode
(the concrete instance of the spec's own `SetRadius` example). -/
def c5sphere : ShapeNode :=
  ⟨Sphere, 2, 2, Centered, [],
    [⟨⟨0, 0, 0⟩, true⟩, ⟨⟨10, 0, 0⟩, true⟩], false, false⟩

/-- A tube node with two point pairs (radius 1 and radius 2 segments) along
the axes (the concrete instance for the tube segment-radius claims). -/
def c6tube : ShapeNode :=
  ⟨Tube, -1, -1, Centered, [],
    [⟨⟨0, 0, 0⟩, true⟩, ⟨⟨2, 0, 0⟩, true⟩,
     ⟨⟨10, 0, 0⟩, true⟩, ⟨⟨10, 4, 0⟩, true⟩], false, false⟩

/-- A sphere node with a reslice node attached and points `(1,0,0)`,
`(0,1,0)` (the concrete instance for the reslice dispatch claim). -/
def c9sphere : ShapeNode :=
  ⟨Sphere, 2, 2, Centered, [],
    [⟨⟨1, 0, 0⟩, true⟩, ⟨⟨0, 1, 0⟩, true⟩], false, true⟩

/-! ### Basic store lemmas -/

theorem posAt_nil (n : ℕ) : posAt [] n = ⟨0, 0, 0⟩ := by
  cases n <;> rfl

theorem posAt_cons_zero (cp : ControlPoint) (tl : List ControlPoint) :
    posAt (cp :: tl) 0 = cp.position := rfl

theorem posAt_cons_succ (cp : ControlPoint) (tl : List ControlPoint) (n : ℕ) :
    posAt (cp :: tl) (n + 1) = posAt tl n := rfl

theorem setPosAux_length (l : List ControlPoint) (n : ℕ) (p : Vec3) :
    (setPosAux l n p).length = l.length := by
  induction l generalizing n with
  | nil => rfl
  | cons cp tl ih =>
    cases n with
    | zero => rfl
    | succ m => simpa [setPosAux] using ih m

theorem setPosAux_countP (l : List ControlPoint) (n : ℕ) (p : Vec3) (g : Bool → Bool) :
    (setPosAux l n p).countP (fun cp => g cp.defined) =
      l.countP (fun cp => g cp.defined) := by
  induction l generalizing n with
  | nil => rfl
  | cons cp tl ih =>
    cases n with
    | zero => simp [setPosAux, List.countP_cons]
    | succ m => simp [setPosAux, List.countP_cons, ih m]

theorem posAt_setPosAux_self (l : List ControlPoint) (n : ℕ) (p : Vec3)
    (h : n < l.length) : posAt (setPosAux l n p) n = p := by
  induction l generalizing n with
  | nil => simp at h
  | cons cp tl ih =>
    cases n with
    | zero => rfl
    | succ m =>
      have hm : m < tl.length := by simpa using h
      simpa [setPosAux, posAt_cons_succ] using ih m hm

theorem posAt_setPosAux_ne (l : List ControlPoint) (n m : ℕ) (p : Vec3)
    (h : m ≠ n) : posAt (setPosAux l n p) m = posAt l m := by
  induction l generalizing n m with
  | nil => cases n <;> rfl
  | cons cp tl ih =>
    cases n with
    | zero =>
      cases m with
      | zero => exact absurd rfl h
      | succ k => rfl
    | succ n' =>
      cases m with
      | zero => rfl
      | succ k =>
        have : k ≠ n' := fun hk => h (by omega)
        simpa [setPosAux, posAt_cons_succ] using ih n' k this

theorem setNth_shapeName (s : ShapeNode) (n : ℕ) (p : Vec3) :
    (setNthControlPointPositionWorld s n p).shapeName = s.shapeName := rfl

theorem setNth_radiusMode (s : ShapeNode) (n : ℕ) (p : Vec3) :
    (setNthControlPointPositionWorld s n p).radiusMode = s.radiusMode := rfl

theorem setNth_length (s : ShapeNode) (n : ℕ) (p : Vec3) :
    getNumberOfControlPoints (setNthControlPointPositionWorld s n p) =
      getNumberOfControlPoints s := by
  simp [getNumberOfControlPoints, setNthControlPointPositionWorld, setPosAux_length]

theorem setNth_definedCount (s : ShapeNode) (n : ℕ) (p : Vec3) :
    getNumberOfDefinedControlPoints (setNthControlPointPositionWorld s n p) =
      getNumberOfDefinedControlPoints s := by
  simpa [getNumberOfDefinedControlPoints, setNthControlPointPositionWorld] using
    setPosAux_countP s.controlPoints n p (fun b => b)

theorem setNth_undefinedCount (s : ShapeNode) (n : ℕ) (p : Vec3) :
    getNumberOfUndefinedControlPoints (setNthControlPointPositionWorld s n p) =
      getNumberOfUndefinedControlPoints s := by
  simpa [getNumberOfUndefinedControlPoints, setNthControlPointPositionWorld] using
    setPosAux_countP s.controlPoints n p (fun b => !b)

theorem getNth_setNth_self (s : ShapeNode) (n : ℕ) (p : Vec3)
    (h : n < s.controlPoints.length) :
    getNthControlPointPositionWorld (setNthControlPointPositionWorld s n p) n = p := by
  simpa [getNthControlPointPositionWorld, setNthControlPointPositionWorld] using
    posAt_setPosAux_self s.controlPoints n p h

theorem getNth_setNth_ne (s : ShapeNode) (n m : ℕ) (p : Vec3) (h : m ≠ n) :
    getNthControlPointPositionWorld (setNthControlPointPositionWorld s n p) m =
      getNthControlPointPositionWorld s m := by
  simpa [getNthControlPointPositionWorld, setNthControlPointPositionWorld] using
    posAt_setPosAux_ne s.controlPoints n m p h

theorem definedCount_add_undefinedCount (s : ShapeNode) :
    getNumberOfDefinedControlPoints s + getNumberOfUndefinedControlPoints s =
      getNumberOfControlPoints s := by
  unfold getNumberOfDefinedControlPoints getNumberOfUndefinedControlPoints
    getNumberOfControlPoints
  induction s.controlPoints with
  | nil => rfl
  | cons cp tl ih =>
    cases hcp : cp.defined <;> simp [List.countP_cons, hcp] <;> omega

theorem definedCount_le_length (s : ShapeNode) :
    getNumberOfDefinedControlPoints s ≤ getNumberOfControlPoints s := by
  have := definedCount_add_undefinedCount s
  omega

/-! ### Geometry lemmas -/

theorem distance2_nonneg (p q : Vec3) : 0 ≤ distance2BetweenPoints p q := by
  unfold distance2BetweenPoints
  positivity

theorem distance_nonneg (p q : Vec3) : 0 ≤ distanceBetweenPoints p q :=
  Real.sqrt_nonneg _

theorem distance2_eq_zero_iff (p q : Vec3) :
    distance2BetweenPoints p q = 0 ↔ p = q := by
  constructor
  · intro h
    unfold distance2BetweenPoints at h
    have hx : p.x = q.x := by nlinarith [sq_nonneg (p.x - q.x), sq_nonneg (p.y - q.y), sq_nonneg (p.z - q.z)]
    have hy : p.y = q.y := by nlinarith [sq_nonneg (p.x - q.x), sq_nonneg (p.y - q.y), sq_nonneg (p.z - q.z)]
    have hz : p.z = q.z := by nlinarith [sq_nonneg (p.x - q.x), sq_nonneg (p.y - q.y), sq_nonneg (p.z - q.z)]
    exact Vec3.ext hx hy hz
  · rintro rfl
    unfold distance2BetweenPoints
    ring

theorem distance_eq_zero_iff (p q : Vec3) :
    distanceBetweenPoints p q = 0 ↔ p = q := by
  rw [distanceBetweenPoints, Real.sqrt_eq_zero (distance2_nonneg p q)]
  exact distance2_eq_zero_iff p q

theorem distance_pos_of_ne {p q : Vec3} (h : p ≠ q) :
    0 < distanceBetweenPoints p q := by
  rcases lt_or_eq_of_le (distance_nonneg p q) with hlt | heq
  · exact hlt
  · exact absurd ((distance_eq_zero_iff p q).mp heq.symm) h

theorem distance2_comm (p q : Vec3) :
    distance2BetweenPoints p q = distance2BetweenPoints q p := by
  unfold distance2BetweenPoints
  ring

theorem distance_comm (p q : Vec3) :
    distanceBetweenPoints p q = distanceBetweenPoints q p := by
  unfold distanceBetweenPoints
  rw [distance2_comm]

theorem linePoint_zero (p q : Vec3) : linePoint p q 0 = p := by
  unfold linePoint
  exact Vec3.ext (by ring) (by ring) (by ring)

theorem linePoint_one (p q : Vec3) : linePoint p q 1 = q := by
  unfold linePoint
  exact Vec3.ext (by ring) (by ring) (by ring)

theorem linePoint_self (p : Vec3) (t : ℝ) : linePoint p p t = p := by
  unfold linePoint
  exact Vec3.ext (by ring) (by ring) (by ring)

theorem linePoint_flip (p q : Vec3) (t : ℝ) :
    linePoint q p t = linePoint p q (1 - t) := by
  unfold linePoint
  exact Vec3.ext (by ring) (by ring) (by ring)

theorem linePoint_comp (p q : Vec3) (a b t : ℝ) :
    linePoint (linePoint p q a) (linePoint p q b) t = linePoint p q (a + t * (b - a)) := by
  unfold linePoint
  exact Vec3.ext (by ring) (by ring) (by ring)

theorem midPoint_eq_linePoint (p q : Vec3) : midPoint p q = linePoint p q (1 / 2) := by
  unfold midPoint linePoint
  exact Vec3.ext (by ring) (by ring) (by ring)

theorem midPoint_linePoint (p q : Vec3) (a b : ℝ) :
    midPoint (linePoint p q a) (linePoint p q b) = linePoint p q ((a + b) / 2) := by
  unfold midPoint linePoint
  exact Vec3.ext (by ring) (by ring) (by ring)

theorem distance2_linePoint (p q : Vec3) (a b : ℝ) :
    distance2BetweenPoints (linePoint p q a) (linePoint p q b) =
      (b - a) ^ 2 * distance2BetweenPoints p q := by
  unfold distance2BetweenPoints linePoint
  ring

theorem distance_linePoint (p q : Vec3) (a b : ℝ) (h : a ≤ b) :
    distanceBetweenPoints (linePoint p q a) (linePoint p q b) =
      (b - a) * distanceBetweenPoints p q := by
  unfold distanceBetweenPoints
  rw [distance2_linePoint, Real.sqrt_mul (sq_nonneg _), Real.sqrt_sq_eq_abs,
    abs_of_nonneg (sub_nonneg.mpr h)]

theorem distance_base_linePoint (p q : Vec3) (t : ℝ) (ht : 0 ≤ t) :
    distanceBetweenPoints p (linePoint p q t) = t * distanceBetweenPoints p q := by
  unfold distanceBetweenPoints
  rw [show distance2BetweenPoints p (linePoint p q t) =
      t ^ 2 * distance2BetweenPoints p q by
    unfold distance2BetweenPoints linePoint
    ring]
  rw [Real.sqrt_mul (sq_nonneg t), Real.sqrt_sq_eq_abs, abs_of_nonneg ht]

theorem distance_linePoint_right (p q : Vec3) (t : ℝ) (ht : t ≤ 1) :
    distanceBetweenPoints (linePoint p q t) q = (1 - t) * distanceBetweenPoints p q := by
  unfold distanceBetweenPoints
  rw [show distance2BetweenPoints (linePoint p q t) q =
      (1 - t) ^ 2 * distance2BetweenPoints p q by
    unfold distance2BetweenPoints linePoint
    ring]
  rw [Real.sqrt_mul (sq_nonneg _), Real.sqrt_sq_eq_abs, abs_of_nonneg (by linarith)]

theorem linePoint_from_mid_left (p q : Vec3) (k : ℝ) :
    linePoint (midPoint p q) p k = linePoint p q ((1 - k) / 2) := by
  unfold linePoint midPoint
  exact Vec3.ext (by ring) (by ring) (by ring)

theorem linePoint_from_mid_right (p q : Vec3) (k : ℝ) :
    linePoint (midPoint p q) q k = linePoint p q ((1 + k) / 2) := by
  unfold linePoint midPoint
  exact Vec3.ext (by ring) (by ring) (by ring)

theorem findLinear_eq_linePoint (p q : Vec3) (d : ℝ) :
    findLinearCoordinateByDistance p q d =
      linePoint p q (1 + d / distanceBetweenPoints p q) := by
  unfold findLinearCoordinateByDistance linePoint vecSub
  exact Vec3.ext (by ring) (by ring) (by ring)

/-! ### Closest-index lemmas -/

theorem closestFrom_stuck (v : Vec3) (l : List ControlPoint) (i : ℕ) (best : ℤ)
    (bestD : ℝ) (h : bestD ≤ 0) : closestFrom v l i best bestD = best := by
  induction l generalizing i with
  | nil => rfl
  | cons cp tl ih =>
    unfold closestFrom
    rw [if_neg (by nlinarith [distance2_nonneg cp.position v])]
    exact ih (i + 1)

theorem closestFrom_first_zero (v : Vec3) (l : List ControlPoint) (j i : ℕ)
    (best : ℤ) (bestD : ℝ) (hb : 0 < bestD) (hj : j < l.length)
    (hpos : posAt l j = v) (hprev : ∀ m, m < j → posAt l m ≠ v) :
    closestFrom v l i best bestD = ((i + j : ℕ) : ℤ) := by
  induction l generalizing j i best bestD with
  | nil => simp at hj
  | cons cp tl ih =>
    cases j with
    | zero =>
      have hcp : cp.position = v := hpos
      have hz : distance2BetweenPoints cp.position v = 0 :=
        (distance2_eq_zero_iff cp.position v).mpr hcp
      unfold closestFrom
      rw [if_pos (by rw [hz]; exact hb)]
      rw [closestFrom_stuck v tl (i + 1) i _ (le_of_eq hz)]
      simp
    | succ j' =>
      have hcp : cp.position ≠ v := hprev 0 (Nat.succ_pos j')
      have hd2 : 0 < distance2BetweenPoints cp.position v := by
        rcases lt_or_eq_of_le (distance2_nonneg cp.position v) with hlt | heq
        · exact hlt
        · exact absurd ((distance2_eq_zero_iff cp.position v).mp heq.symm) hcp
      have hj' : j' < tl.length := by simpa using hj
      have hpos' : posAt tl j' = v := hpos
      have hprev' : ∀ m, m < j' → posAt tl m ≠ v := by
        intro m hm
        exact hprev (m + 1) (by omega)
      unfold closestFrom
      by_cases hlt : distance2BetweenPoints cp.position v < bestD
      · rw [if_pos hlt]
        rw [ih j' (i + 1) (i : ℤ) _ hd2 hj' hpos' hprev']
        push_cast
        ring
      · rw [if_neg hlt]
        rw [ih j' (i + 1) best bestD hb hj' hpos' hprev']
        push_cast
        ring

theorem getClosest_eq_first (s : ShapeNode) (v : Vec3) (j : ℕ)
    (hj : j < s.controlPoints.length)
    (hpos : getNthControlPointPositionWorld s j = v)
    (hprev : ∀ m, m < j → getNthControlPointPositionWorld s m ≠ v) :
    getClosestControlPointIndexToPositionWorld s v = (j : ℤ) := by
  unfold getClosestControlPointIndexToPositionWorld
  unfold getNthControlPointPositionWorld at hpos hprev
  rcases hl : s.controlPoints with _ | ⟨cp, tl⟩
  · rw [hl] at hj; simp at hj
  · rw [hl] at hpos hprev hj
    cases j with
    | zero =>
      have hcp : cp.position = v := hpos
      have hz : distance2BetweenPoints cp.position v = 0 :=
        (distance2_eq_zero_iff cp.position v).mpr hcp
      exact (closestFrom_stuck v tl 1 0 _ (le_of_eq hz)).trans (by simp)
    | succ j' =>
      have hcp : cp.position ≠ v := hprev 0 (Nat.succ_pos j')
      have hd2 : 0 < distance2BetweenPoints cp.position v := by
        rcases lt_or_eq_of_le (distance2_nonneg cp.position v) with hlt | heq
        · exact hlt
        · exact absurd ((distance2_eq_zero_iff cp.position v).mp heq.symm) hcp
      have hj' : j' < tl.length := by simpa using hj
      have hprev' : ∀ m, m < j' → posAt tl m ≠ v := by
        intro m hm
        exact hprev (m + 1) (by omega)
      exact (closestFrom_first_zero v tl j' 1 0 _ hd2 hj' hpos hprev').trans
        (by push_cast; ring)

/-! ### Claim C1 -/

/-- C1: the claim states that `SetShapeKind(Tube)` sets the required and
maximum counts to `-1`, installs the Tube measurement set, and clears the
control point store entirely. The source's `case Tube:` lacks a `break`, so
after setting the counts and measurements it falls into `default:`
(`vtkErrorMacro("Unknown shape."); return;`) and returns *before* the block
that would clear the store: for every starting state the control points are
left untouched (and the "Unknown shape." error fires for the valid kind
`Tube`), contradicting the claim — a missing-`break` code bug. -/
theorem C1_setShapeKind_tube_falls_through (s : ShapeNode) :
    (setShapeName s Tube).1.requiredNumberOfControlPoints = -1 ∧
    (setShapeName s Tube).1.maximumNumberOfControlPoints = -1 ∧
    (setShapeName s Tube).1.measurements =
      [⟨"area", "cm2", 1/100, shapeFmt, false⟩,
       ⟨"volume", "cm3", 1/100, shapeFmt, true⟩] ∧
    (setShapeName s Tube).1.controlPoints = s.controlPoints ∧
    (setShapeName s Tube).2 = true := by
  refine ⟨?_, ?_, ?_, ?_, ?_⟩ <;>
    simp [setShapeName, forceTubeMeasurements, Sphere, Ring, Disk, Tube]

/-! ### Claim C2 -/

/-- C2 counterexample: the claim says an invalid kind leaves the stored
shape kind unchanged, but the source assigns `this->ShapeName = shapeName`
*before* the validating switch: on a sphere node, `SetShapeKind(7)` fails
yet leaves the stored kind equal to `7`, not to the previous `Sphere`. -/
theorem C2_counterexample :
    (setShapeName c2node 7).1.shapeName = 7 ∧
    (setShapeName c2node 7).2 = true ∧
    c2node.shapeName = Sphere ∧ (7 : ℤ) ≠ Sphere := by
  refine ⟨rfl, rfl, rfl, by decide⟩

/-- C2 (amended): for every starting state and every kind outside
{Sphere, Ring, Disk, Tube}, `SetShapeKind(kind)` fails (`InvalidShapeKind`)
and leaves the required/maximum counts, the measurement set and the control
point store unchanged — but the stored shape kind is overwritten with the
invalid value (the source assigns it before validating). -/
theorem C2_invalid_kind_behaviour (s : ShapeNode) (k : ℤ)
    (h0 : k ≠ Sphere) (h1 : k ≠ Ring) (h2 : k ≠ Disk) (h3 : k ≠ Tube) :
    setShapeName s k = ({ s with shapeName := k }, true) := by
  simp [setShapeName, h0, h1, h2, h3]

/-- C2 witness: the amended theorem applied at the concrete sphere node and
the invalid kind `7`. -/
theorem C2_invalid_kind_witness :
    (7 : ℤ) ≠ Sphere ∧ (7 : ℤ) ≠ Ring ∧ (7 : ℤ) ≠ Disk ∧ (7 : ℤ) ≠ Tube ∧
    setShapeName c2node 7 = ({ c2node with shapeName := 7 }, true) :=
  ⟨by decide, by decide, by decide, by decide,
    C2_invalid_kind_behaviour c2node 7 (by decide) (by decide) (by decide) (by decide)⟩

/-! ### Claim C4 -/

/-- C4: one delivery of the Tube "point position undefined at index `i`"
notification, when no control point is undefined: with the in-flight flag
set or an empty store the flag is cleared and nothing is removed; for even
`i` with a point still at index `i` the flag is set and the point now at
index `i` is removed; for even `i` past the end nothing is removed and the
flag is cleared; for odd `i` the flag is set and index `i - 1` is removed.
From six defined points, notifying at index 2 (after the host's own removal
of that point) leaves exactly 4 points, and likewise at index 5. -/
theorem C4_tube_pair_removal (s : ShapeNode) (i : ℕ)
    (hTube : s.shapeName = Tube) (hU : getNumberOfUndefinedControlPoints s = 0) :
    ((s.removingPairControlPoint = true ∨ getNumberOfControlPoints s = 0) →
      onPointPositionUndefined s i = { s with removingPairControlPoint := false }) ∧
    (s.removingPairControlPoint = false → getNumberOfControlPoints s ≠ 0 →
      i % 2 = 0 → i < getNumberOfControlPoints s →
      onPointPositionUndefined s i =
        { s with removingPairControlPoint := true,
                 controlPoints := s.controlPoints.eraseIdx i }) ∧
    (s.removingPairControlPoint = false → getNumberOfControlPoints s ≠ 0 →
      i % 2 = 0 → getNumberOfControlPoints s ≤ i →
      onPointPositionUndefined s i = { s with removingPairControlPoint := false }) ∧
    (s.removingPairControlPoint = false → getNumberOfControlPoints s ≠ 0 →
      i % 2 = 1 →
      onPointPositionUndefined s i =
        { s with removingPairControlPoint := true,
                 controlPoints := s.controlPoints.eraseIdx (i - 1) }) ∧
    getNumberOfControlPoints
      (onPointPositionUndefined
        { c4tube with controlPoints := c4tube.controlPoints.eraseIdx 2 } 2) = 4 ∧
    getNumberOfControlPoints
      (onPointPositionUndefined
        { c4tube with controlPoints := c4tube.controlPoints.eraseIdx 5 } 5) = 4 := by
  have hguard : ¬(s.shapeName ≠ Tube ∨ 0 < getNumberOfUndefinedControlPoints s) := by
    simp [hTube, hU]
  refine ⟨?_, ?_, ?_, ?_, by decide, by decide⟩
  · intro h
    unfold onPointPositionUndefined
    rw [if_neg hguard, if_pos (by rcases h with h | h <;> simp [h])]
  · intro hflag hne hev hlt
    unfold onPointPositionUndefined
    rw [if_neg hguard, if_neg (by simp [hflag, hne]), if_pos hev, if_pos hlt]
  · intro hflag hne hev hge
    unfold onPointPositionUndefined
    rw [if_neg hguard, if_neg (by simp [hflag, hne]), if_pos hev,
      if_neg (by omega)]
  · intro hflag hne hodd
    unfold onPointPositionUndefined
    rw [if_neg hguard, if_neg (by simp [hflag, hne]), if_neg (by omega)]

/-- C4 witness: the theorem applied at the concrete six-point tube after the
host removed index 2 — the notification removes the pair partner, setting
the in-flight flag, and 4 points remain. -/
theorem C4_tube_pair_removal_witness :
    ({ c4tube with controlPoints := c4tube.controlPoints.eraseIdx 2 } :
        ShapeNode).shapeName = Tube ∧
    getNumberOfUndefinedControlPoints
      { c4tube with controlPoints := c4tube.controlPoints.eraseIdx 2 } = 0 ∧
    getNumberOfControlPoints
      (onPointPositionUndefined
        { c4tube with controlPoints := c4tube.controlPoints.eraseIdx 2 } 2) = 4 :=
  ⟨rfl, by decide,
    (C4_tube_pair_removal
      { c4tube with controlPoints := c4tube.controlPoints.eraseIdx 2 } 2
      rfl (by decide)).2.2.2.2.1⟩

/-! ### Claim C7 -/

/-- C7: on a Tube, `GetRadiusAtSegment(n)` fails (returns the failure
value) exactly when `n < 0`, or some control point is undefined, or fewer
than 4 points are defined, or the defined count is odd, or `n` is not less
than the defined count; when it does not fail it returns half the distance
between the two points of the pair containing `n` (pair `(n, n+1)` for even
`n`, `(n-1, n)` for odd `n`). On a non-Tube shape it always fails. -/
theorem C7_get_radius_guard (s : ShapeNode) (n : ℤ) :
    (s.shapeName ≠ Tube → getRadiusAtNthControlPoint s n = -1) ∧
    (s.shapeName = Tube →
      (getRadiusAtNthControlPoint s n = -1 ↔
        (n < 0 ∨ 0 < getNumberOfUndefinedControlPoints s
          ∨ getNumberOfDefinedControlPoints s < 4
          ∨ getNumberOfDefinedControlPoints s % 2 ≠ 0
          ∨ (getNumberOfDefinedControlPoints s : ℤ) ≤ n))) ∧
    (s.shapeName = Tube →
      ¬(n < 0 ∨ 0 < getNumberOfUndefinedControlPoints s
          ∨ getNumberOfDefinedControlPoints s < 4
          ∨ getNumberOfDefinedControlPoints s % 2 ≠ 0
          ∨ (getNumberOfDefinedControlPoints s : ℤ) ≤ n) →
      getRadiusAtNthControlPoint s n =
        (if n % 2 = 0 then
          distanceBetweenPoints (getNthControlPointPositionWorld s n.toNat)
            (getNthControlPointPositionWorld s (n.toNat + 1)) / 2
        else
          distanceBetweenPoints (getNthControlPointPositionWorld s (n.toNat - 1))
            (getNthControlPointPositionWorld s n.toNat) / 2)) := by
  refine ⟨?_, ?_, ?_⟩
  · intro h
    unfold getRadiusAtNthControlPoint
    rw [if_pos h]
  · intro hT
    simp only [getRadiusAtNthControlPoint, hT]
    rw [if_neg (by simp)]
    constructor
    · intro h
      by_contra hg
      rw [if_neg hg] at h
      have h0 := distance_nonneg
        (if n % 2 = 0 then getNthControlPointPositionWorld s n.toNat
          else getNthControlPointPositionWorld s (n.toNat - 1))
        (if n % 2 = 0 then getNthControlPointPositionWorld s (n.toNat + 1)
          else getNthControlPointPositionWorld s n.toNat)
      linarith
    · intro hg
      rw [if_pos hg]
  · intro hT hg
    simp only [getRadiusAtNthControlPoint, hT]
    rw [if_neg (by simp), if_neg hg]
    by_cases he : n % 2 = 0 <;> simp [he]

/-- C7 witness: the theorem at the concrete two-pair tube, at the valid
even index 0 (radius 1) and at the out-of-range index 7 (failure). -/
theorem C7_get_radius_guard_witness :
    c6tube.shapeName = Tube ∧
    ¬((0 : ℤ) < 0 ∨ 0 < getNumberOfUndefinedControlPoints c6tube
        ∨ getNumberOfDefinedControlPoints c6tube < 4
        ∨ getNumberOfDefinedControlPoints c6tube % 2 ≠ 0
        ∨ (getNumberOfDefinedControlPoints c6tube : ℤ) ≤ 0) ∧
    getRadiusAtNthControlPoint c6tube 0 = 1 ∧
    getRadiusAtNthControlPoint c6tube 7 = -1 := by
  have hcount : getNumberOfDefinedControlPoints c6tube = 4 := by decide
  have hundef : getNumberOfUndefinedControlPoints c6tube = 0 := by decide
  have hg : ¬((0 : ℤ) < 0 ∨ 0 < getNumberOfUndefinedControlPoints c6tube
      ∨ getNumberOfDefinedControlPoints c6tube < 4
      ∨ getNumberOfDefinedControlPoints c6tube % 2 ≠ 0
      ∨ (getNumberOfDefinedControlPoints c6tube : ℤ) ≤ 0) := by
    rw [hcount, hundef]
    decide
  refine ⟨rfl, hg, ?_, ?_⟩
  · have h := (C7_get_radius_guard c6tube 0).2.2 rfl hg
    rw [h]
    have hp0 : getNthControlPointPositionWorld c6tube (Int.toNat 0) = ⟨0, 0, 0⟩ := rfl
    have hp1 : getNthControlPointPositionWorld c6tube (Int.toNat 0 + 1) = ⟨2, 0, 0⟩ := rfl
    rw [if_pos (by decide), hp0, hp1]
    unfold distanceBetweenPoints
    rw [show distance2BetweenPoints ⟨0, 0, 0⟩ ⟨2, 0, 0⟩ = 2 ^ 2 by
      unfold distance2BetweenPoints; norm_num]
    rw [Real.sqrt_sq (by norm_num)]
    norm_num
  · have h := (C7_get_radius_guard c6tube 7).2.1 rfl
    rw [h]
    rw [hcount]
    decide

/-! ### Claim C10 -/

/-- C10: `GetRadiusAtSegment` signals every failure by returning the
sentinel `-1.0` (wrong shape, or any violated precondition), and
`SetRadiusAtSegment(n, r)` aborts with the state unchanged whenever
`r ≤ 0` or the queried current radius is not strictly positive — in
particular a pair whose points coincide (current radius `0`) can never be
resized. -/
theorem C10_sentinel_and_abort (s : ShapeNode) (n : ℤ) (r : ℝ) :
    ((s.shapeName ≠ Tube
      ∨ (n < 0 ∨ 0 < getNumberOfUndefinedControlPoints s
          ∨ getNumberOfDefinedControlPoints s < 4
          ∨ getNumberOfDefinedControlPoints s % 2 ≠ 0
          ∨ (getNumberOfDefinedControlPoints s : ℤ) ≤ n)) →
      getRadiusAtNthControlPoint s n = -1) ∧
    ((r ≤ 0 ∨ getRadiusAtNthControlPoint s n ≤ 0) →
      setRadiusAtNthControlPoint s n r = (s, true)) := by
  constructor
  · intro h
    unfold getRadiusAtNthControlPoint
    by_cases hs : s.shapeName ≠ Tube
    · rw [if_pos hs]
    · rcases h with h | h
      · exact absurd h hs
      · rw [if_neg hs, if_pos h]
  · intro h
    simp only [setRadiusAtNthControlPoint]
    by_cases hr : r ≤ 0
    · rw [if_pos hr]
    · have hg : getRadiusAtNthControlPoint s n ≤ 0 := by
        rcases h with h | h
        · exact absurd h hr
        · exact h
      rw [if_neg hr, if_pos hg]

/-- C10 witness: the theorem at a non-Tube node (sentinel `-1`) and at a
non-positive requested radius (abort, state unchanged). -/
theorem C10_sentinel_and_abort_witness :
    c2node.shapeName ≠ Tube ∧
    getRadiusAtNthControlPoint c2node 0 = -1 ∧
    ((-1 : ℝ) ≤ 0) ∧
    setRadiusAtNthControlPoint c2node 0 (-1) = (c2node, true) := by
  have hne : c2node.shapeName ≠ Tube := by decide
  exact ⟨hne, (C10_sentinel_and_abort c2node 0 0).1 (Or.inl hne), by norm_num,
    (C10_sentinel_and_abort c2node 0 (-1)).2 (Or.inl (by norm_num))⟩

/-! ### Claim C9 -/

/-- C9: `DeriveReslicePlane` dispatch (with a reslice node attached): for
`Sphere` the normal is the cross product of the *absolute* position vectors
`p0 × p1` and the call is a no-op when it vanishes; for `Ring` and `Disk`
the normal is `(p1 - p0) × (p2 - p0)`, no-op when zero; for `Tube` it is
always a no-op. -/
theorem C9_reslice_dispatch (s : ShapeNode) (hR : s.resliceNodeSet = true) :
    (s.shapeName = Sphere →
      (((crossProduct (getNthControlPointPositionWorld s 0)
            (getNthControlPointPositionWorld s 1)).x = 0 ∧
        (crossProduct (getNthControlPointPositionWorld s 0)
            (getNthControlPointPositionWorld s 1)).y = 0 ∧
        (crossProduct (getNthControlPointPositionWorld s 0)
            (getNthControlPointPositionWorld s 1)).z = 0) →
          resliceToControlPoints s = none) ∧
      (¬((crossProduct (getNthControlPointPositionWorld s 0)
            (getNthControlPointPositionWorld s 1)).x = 0 ∧
        (crossProduct (getNthControlPointPositionWorld s 0)
            (getNthControlPointPositionWorld s 1)).y = 0 ∧
        (crossProduct (getNthControlPointPositionWorld s 0)
            (getNthControlPointPositionWorld s 1)).z = 0) →
          resliceToControlPoints s =
            some (crossProduct (getNthControlPointPositionWorld s 0)
                (getNthControlPointPositionWorld s 1),
              getNthControlPointPositionWorld s 1,
              getNthControlPointPositionWorld s 0))) ∧
    ((s.shapeName = Ring ∨ s.shapeName = Disk) →
      (((crossProduct
            (vecSub (getNthControlPointPositionWorld s 1) (getNthControlPointPositionWorld s 0))
            (vecSub (getNthControlPointPositionWorld s 2) (getNthControlPointPositionWorld s 0))).x = 0 ∧
        (crossProduct
            (vecSub (getNthControlPointPositionWorld s 1) (getNthControlPointPositionWorld s 0))
            (vecSub (getNthControlPointPositionWorld s 2) (getNthControlPointPositionWorld s 0))).y = 0 ∧
        (crossProduct
            (vecSub (getNthControlPointPositionWorld s 1) (getNthControlPointPositionWorld s 0))
            (vecSub (getNthControlPointPositionWorld s 2) (getNthControlPointPositionWorld s 0))).z = 0) →
          resliceToControlPoints s = none) ∧
      (¬((crossProduct
            (vecSub (getNthControlPointPositionWorld s 1) (getNthControlPointPositionWorld s 0))
            (vecSub (getNthControlPointPositionWorld s 2) (getNthControlPointPositionWorld s 0))).x = 0 ∧
        (crossProduct
            (vecSub (getNthControlPointPositionWorld s 1) (getNthControlPointPositionWorld s 0))
            (vecSub (getNthControlPointPositionWorld s 2) (getNthControlPointPositionWorld s 0))).y = 0 ∧
        (crossProduct
            (vecSub (getNthControlPointPositionWorld s 1) (getNthControlPointPositionWorld s 0))
            (vecSub (getNthControlPointPositionWorld s 2) (getNthControlPointPositionWorld s 0))).z = 0) →
          resliceToControlPoints s =
            some (crossProduct
                (vecSub (getNthControlPointPositionWorld s 1) (getNthControlPointPositionWorld s 0))
                (vecSub (getNthControlPointPositionWorld s 2) (getNthControlPointPositionWorld s 0)),
              getNthControlPointPositionWorld s 1,
              getNthControlPointPositionWorld s 0))) ∧
    (s.shapeName = Tube → resliceToControlPoints s = none) := by
  have hRne : ¬(s.resliceNodeSet = false) := by simp [hR]
  refine ⟨?_, ?_, ?_⟩
  · intro hS
    constructor
    · intro hz
      unfold resliceToControlPoints
      rw [if_pos hS]
      simp only [resliceToLine]
      rw [if_neg hRne, if_pos hz]
    · intro hz
      unfold resliceToControlPoints
      rw [if_pos hS]
      simp only [resliceToLine]
      rw [if_neg hRne, if_neg hz]
  · intro hRD
    have hplane : resliceToControlPoints s = resliceToPlane s := by
      unfold resliceToControlPoints
      rcases hRD with h | h
      · rw [if_neg (by rw [h]; decide), if_pos h]
      · rw [if_neg (by rw [h]; decide), if_neg (by rw [h]; decide), if_pos h]
    constructor
    · intro hz
      rw [hplane]
      simp only [resliceToPlane]
      rw [if_neg hRne, if_pos hz]
    · intro hz
      rw [hplane]
      simp only [resliceToPlane]
      rw [if_neg hRne, if_neg hz]
  · intro hT
    unfold resliceToControlPoints
    rw [if_neg (by rw [hT]; decide), if_neg (by rw [hT]; decide),
      if_neg (by rw [hT]; decide)]

/-- C9 witness: the theorem at the concrete sphere node with points
`(1,0,0)` and `(0,1,0)`, whose cross product `(0,0,1)` is non-zero. -/
theorem C9_reslice_dispatch_witness :
    c9sphere.resliceNodeSet = true ∧ c9sphere.shapeName = Sphere ∧
    ¬((crossProduct (getNthControlPointPositionWorld c9sphere 0)
          (getNthControlPointPositionWorld c9sphere 1)).x = 0 ∧
      (crossProduct (getNthControlPointPositionWorld c9sphere 0)
          (getNthControlPointPositionWorld c9sphere 1)).y = 0 ∧
      (crossProduct (getNthControlPointPositionWorld c9sphere 0)
          (getNthControlPointPositionWorld c9sphere 1)).z = 0) ∧
    resliceToControlPoints c9sphere =
      some (crossProduct (getNthControlPointPositionWorld c9sphere 0)
          (getNthControlPointPositionWorld c9sphere 1),
        getNthControlPointPositionWorld c9sphere 1,
        getNthControlPointPositionWorld c9sphere 0) := by
  have hz : ¬((crossProduct (getNthControlPointPositionWorld c9sphere 0)
        (getNthControlPointPositionWorld c9sphere 1)).x = 0 ∧
      (crossProduct (getNthControlPointPositionWorld c9sphere 0)
          (getNthControlPointPositionWorld c9sphere 1)).y = 0 ∧
      (crossProduct (getNthControlPointPositionWorld c9sphere 0)
          (getNthControlPointPositionWorld c9sphere 1)).z = 0) := by
    have h0 : getNthControlPointPositionWorld c9sphere 0 = ⟨1, 0, 0⟩ := rfl
    have h1 : getNthControlPointPositionWorld c9sphere 1 = ⟨0, 1, 0⟩ := rfl
    rw [h0, h1]
    unfold crossProduct
    intro hc
    have := hc.2.2
    norm_num at this
  exact ⟨rfl, rfl, hz, ((C9_reslice_dispatch c9sphere rfl).1 rfl).2 hz⟩

/-! ### Claim C8 -/

theorem countP_three_swap (c0 c1 c2 : ControlPoint) (p : ControlPoint → Bool) :
    List.countP p [c0, c1, c2] = List.countP p [c0, c2, c1] := by
  simp only [List.countP_cons, List.countP_nil]
  ring

theorem describe_on_three (s : ShapeNode) (c0 c1 c2 : ControlPoint)
    (hcp : s.controlPoints = [c0, c1, c2]) (hD : s.shapeName = Disk)
    (h3 : getNumberOfDefinedControlPoints s = 3) :
    describeDiskPointSpacing s =
      (if distanceBetweenPoints c0.position c1.position ≤
          distanceBetweenPoints c0.position c2.position then
        some (c1.position, c2.position,
          distanceBetweenPoints c0.position c1.position,
          distanceBetweenPoints c0.position c2.position)
      else
        some (c2.position, c1.position,
          distanceBetweenPoints c0.position c2.position,
          distanceBetweenPoints c0.position c1.position)) := by
  have h0 : getNthControlPointPositionWorld s 0 = c0.position := by
    unfold getNthControlPointPositionWorld
    rw [hcp]
    rfl
  have h1 : getNthControlPointPositionWorld s 1 = c1.position := by
    unfold getNthControlPointPositionWorld
    rw [hcp]
    rfl
  have h2 : getNthControlPointPositionWorld s 2 = c2.position := by
    unfold getNthControlPointPositionWorld
    rw [hcp]
    rfl
  simp only [describeDiskPointSpacing, h0, h1, h2]
  rw [if_neg (by simp [hD]), if_neg (by simp [h3])]

/-- C8: on a Disk with exactly 3 defined points, `DescribeDiskSpacing` is a
pure function of the shape kind and the stored points (hence deterministic
and idempotent across calls without intervening mutation); an exact
distance tie reports point `a` (stored index 1) as the closest; exchanging
the stored order of the two non-center points leaves the
`(innerRadius, outerRadius)` pair unchanged; with a different kind or a
defined count other than 3 it fails. -/
theorem C8_disk_spacing_properties :
    (∀ s t : ShapeNode, s.shapeName = t.shapeName →
      s.controlPoints = t.controlPoints →
      describeDiskPointSpacing s = describeDiskPointSpacing t) ∧
    (∀ s : ShapeNode, s.shapeName = Disk →
      getNumberOfDefinedControlPoints s = 3 →
      distanceBetweenPoints (getNthControlPointPositionWorld s 0)
          (getNthControlPointPositionWorld s 1) =
        distanceBetweenPoints (getNthControlPointPositionWorld s 0)
          (getNthControlPointPositionWorld s 2) →
      describeDiskPointSpacing s =
        some (getNthControlPointPositionWorld s 1,
          getNthControlPointPositionWorld s 2,
          distanceBetweenPoints (getNthControlPointPositionWorld s 0)
            (getNthControlPointPositionWorld s 1),
          distanceBetweenPoints (getNthControlPointPositionWorld s 0)
            (getNthControlPointPositionWorld s 2))) ∧
    (∀ (s : ShapeNode) (c0 c1 c2 : ControlPoint), s.controlPoints = [c0, c1, c2] →
      diskRadii (describeDiskPointSpacing s) =
        diskRadii (describeDiskPointSpacing { s with controlPoints := [c0, c2, c1] })) ∧
    (∀ s : ShapeNode, (s.shapeName ≠ Disk ∨ getNumberOfDefinedControlPoints s ≠ 3) →
      describeDiskPointSpacing s = none) := by
  refine ⟨?_, ?_, ?_, ?_⟩
  · intro s t h1 h2
    unfold describeDiskPointSpacing getNumberOfDefinedControlPoints
      getNthControlPointPositionWorld
    rw [h1, h2]
  · intro s hD h3 heq
    simp only [describeDiskPointSpacing]
    rw [if_neg (by simp [hD]), if_neg (by simp [h3]), if_pos (le_of_eq heq)]
  · intro s c0 c1 c2 hcp
    by_cases hD : s.shapeName = Disk
    · by_cases h3 : getNumberOfDefinedControlPoints s = 3
      · have h3' : getNumberOfDefinedControlPoints
            { s with controlPoints := [c0, c2, c1] } = 3 := by
          unfold getNumberOfDefinedControlPoints at h3 ⊢
          rw [hcp] at h3
          rw [← countP_three_swap]
          exact h3
        rw [describe_on_three s c0 c1 c2 hcp hD h3,
          describe_on_three { s with controlPoints := [c0, c2, c1] } c0 c2 c1 rfl hD h3']
        rcases le_total (distanceBetweenPoints c0.position c1.position)
          (distanceBetweenPoints c0.position c2.position) with hle | hle
        · rw [if_pos hle]
          by_cases hge : distanceBetweenPoints c0.position c2.position ≤
              distanceBetweenPoints c0.position c1.position
          · rw [if_pos hge, le_antisymm hle hge]
            rfl
          · rw [if_neg hge]
        · by_cases hlt : distanceBetweenPoints c0.position c1.position ≤
              distanceBetweenPoints c0.position c2.position
          · rw [if_pos hlt, if_pos hle, le_antisymm hlt hle]
            rfl
          · rw [if_neg hlt, if_pos hle]
      · have h3' : getNumberOfDefinedControlPoints
            { s with controlPoints := [c0, c2, c1] } ≠ 3 := by
          unfold getNumberOfDefinedControlPoints at h3 ⊢
          rw [hcp] at h3
          rw [← countP_three_swap]
          exact h3
        have e1 : describeDiskPointSpacing s = none := by
          unfold describeDiskPointSpacing
          rw [if_neg (by simp [hD]), if_pos h3]
        have e2 : describeDiskPointSpacing { s with controlPoints := [c0, c2, c1] } = none := by
          unfold describeDiskPointSpacing
          rw [if_neg (by simp [hD]), if_pos h3']
        rw [e1, e2]
    · have e1 : describeDiskPointSpacing s = none := by
        unfold describeDiskPointSpacing
        rw [if_pos hD]
      have e2 : describeDiskPointSpacing { s with controlPoints := [c0, c2, c1] } = none := by
        unfold describeDiskPointSpacing
        rw [if_pos hD]
      rw [e1, e2]
  · intro s h
    unfold describeDiskPointSpacing
    by_cases hD : s.shapeName ≠ Disk
    · rw [if_pos hD]
    · rcases h with h | h
      · exact absurd h hD
      · rw [if_neg hD, if_pos h]

/-- C8 witness: the theorem's tie case at the concrete disk whose two
non-center points are both at distance 1 from the center: point `a` (index
1) is reported as closest. -/
theorem C8_disk_spacing_witness :
    c8disk.shapeName = Disk ∧
    getNumberOfDefinedControlPoints c8disk = 3 ∧
    distanceBetweenPoints (getNthControlPointPositionWorld c8disk 0)
        (getNthControlPointPositionWorld c8disk 1) =
      distanceBetweenPoints (getNthControlPointPositionWorld c8disk 0)
        (getNthControlPointPositionWorld c8disk 2) ∧
    describeDiskPointSpacing c8disk =
      some (getNthControlPointPositionWorld c8disk 1,
        getNthControlPointPositionWorld c8disk 2,
        distanceBetweenPoints (getNthControlPointPositionWorld c8disk 0)
          (getNthControlPointPositionWorld c8disk 1),
        distanceBetweenPoints (getNthControlPointPositionWorld c8disk 0)
          (getNthControlPointPositionWorld c8disk 2)) := by
  have heq : distanceBetweenPoints (getNthControlPointPositionWorld c8disk 0)
      (getNthControlPointPositionWorld c8disk 1) =
    distanceBetweenPoints (getNthControlPointPositionWorld c8disk 0)
      (getNthControlPointPositionWorld c8disk 2) := by
    have ha : getNthControlPointPositionWorld c8disk 0 = ⟨0, 0, 0⟩ := rfl
    have hb : getNthControlPointPositionWorld c8disk 1 = ⟨1, 0, 0⟩ := rfl
    have hc : getNthControlPointPositionWorld c8disk 2 = ⟨0, 1, 0⟩ := rfl
    rw [ha, hb, hc]
    unfold distanceBetweenPoints
    congr 1
    unfold distance2BetweenPoints
    norm_num
  exact ⟨rfl, by decide, heq,
    C8_disk_spacing_properties.2.1 c8disk rfl (by decide) heq⟩

/-! ### Claim C5 -/

/-- C5: on a non-Disk two-point shape with distinct points and `r > 0`,
`SetRadius(r)` succeeds and reading the radius back yields `r`: in
`Centered` mode the distance `|p0,p1|` becomes `r` with point 0 unchanged;
in `Circumferential` mode `|p0,p1|/2` becomes `r` and the midpoint of the
two points is preserved. -/
theorem C5_set_radius_readback (s : ShapeNode) (r : ℝ)
    (hD : s.shapeName ≠ Disk) (hr : 0 < r)
    (hlen : 2 ≤ s.controlPoints.length)
    (hne : getNthControlPointPositionWorld s 0 ≠ getNthControlPointPositionWorld s 1) :
    (setRadius s r).2 = false ∧
    (s.radiusMode = Centered →
      getNthControlPointPositionWorld (setRadius s r).1 0 =
        getNthControlPointPositionWorld s 0 ∧
      distanceBetweenPoints (getNthControlPointPositionWorld (setRadius s r).1 0)
        (getNthControlPointPositionWorld (setRadius s r).1 1) = r) ∧
    (s.radiusMode = Circumferential →
      distanceBetweenPoints (getNthControlPointPositionWorld (setRadius s r).1 0)
        (getNthControlPointPositionWorld (setRadius s r).1 1) / 2 = r ∧
      midPoint (getNthControlPointPositionWorld (setRadius s r).1 0)
          (getNthControlPointPositionWorld (setRadius s r).1 1) =
        midPoint (getNthControlPointPositionWorld s 0)
          (getNthControlPointPositionWorld s 1)) := by
  have hnr : ¬(r ≤ 0) := not_le.mpr hr
  have hL : 0 < distanceBetweenPoints (getNthControlPointPositionWorld s 0)
      (getNthControlPointPositionWorld s 1) := distance_pos_of_ne hne
  have hLne : distanceBetweenPoints (getNthControlPointPositionWorld s 0)
      (getNthControlPointPositionWorld s 1) ≠ 0 := ne_of_gt hL
  refine ⟨?_, ?_, ?_⟩
  · simp only [setRadius]
    rw [if_neg (by simpa using hD), if_neg hnr]
    split <;> rfl
  · intro hmode
    have hmC : ¬(s.radiusMode = Circumferential) := by
      rw [hmode]
      decide
    have hset : setRadius s r =
        (setNthControlPointPositionWorld s 1
          (findLinearCoordinateByDistance (getNthControlPointPositionWorld s 0)
            (getNthControlPointPositionWorld s 1)
            (r - distanceBetweenPoints (getNthControlPointPositionWorld s 0)
              (getNthControlPointPositionWorld s 1))), false) := by
      simp only [setRadius]
      rw [if_neg (by simpa using hD), if_neg hnr, if_pos hmode, if_neg hmC]
    have h0 : getNthControlPointPositionWorld (setRadius s r).1 0 =
        getNthControlPointPositionWorld s 0 := by
      rw [hset]
      exact getNth_setNth_ne s 1 0 _ (by omega)
    have h1 : getNthControlPointPositionWorld (setRadius s r).1 1 =
        findLinearCoordinateByDistance (getNthControlPointPositionWorld s 0)
          (getNthControlPointPositionWorld s 1)
          (r - distanceBetweenPoints (getNthControlPointPositionWorld s 0)
            (getNthControlPointPositionWorld s 1)) := by
      rw [hset]
      exact getNth_setNth_self s 1 _ (by omega)
    refine ⟨h0, ?_⟩
    rw [h0, h1, findLinear_eq_linePoint]
    have ht : 1 + (r - distanceBetweenPoints (getNthControlPointPositionWorld s 0)
          (getNthControlPointPositionWorld s 1)) /
        distanceBetweenPoints (getNthControlPointPositionWorld s 0)
          (getNthControlPointPositionWorld s 1) =
        r / distanceBetweenPoints (getNthControlPointPositionWorld s 0)
          (getNthControlPointPositionWorld s 1) := by
      field_simp
    rw [ht, distance_base_linePoint _ _ _ (by positivity)]
    field_simp
  · intro hmode
    have hmNC : ¬(s.radiusMode = Centered) := by
      rw [hmode]
      decide
    have hset : setRadius s r =
        (setNthControlPointPositionWorld
          (setNthControlPointPositionWorld s 1
            (findLinearCoordinateByDistance (getNthControlPointPositionWorld s 0)
              (getNthControlPointPositionWorld s 1)
              (r - distanceBetweenPoints (getNthControlPointPositionWorld s 0)
                (getNthControlPointPositionWorld s 1) / 2))) 0
          (findLinearCoordinateByDistance (getNthControlPointPositionWorld s 1)
            (getNthControlPointPositionWorld s 0)
            (r - distanceBetweenPoints (getNthControlPointPositionWorld s 0)
              (getNthControlPointPositionWorld s 1) / 2)), false) := by
      simp only [setRadius]
      rw [if_neg (by simpa using hD), if_neg hnr, if_neg hmNC, if_pos hmode]
    have h1 : getNthControlPointPositionWorld (setRadius s r).1 1 =
        findLinearCoordinateByDistance (getNthControlPointPositionWorld s 0)
          (getNthControlPointPositionWorld s 1)
          (r - distanceBetweenPoints (getNthControlPointPositionWorld s 0)
            (getNthControlPointPositionWorld s 1) / 2) := by
      rw [hset]
      rw [getNth_setNth_ne _ 0 1 _ (by omega)]
      exact getNth_setNth_self s 1 _ (by omega)
    have h0 : getNthControlPointPositionWorld (setRadius s r).1 0 =
        findLinearCoordinateByDistance (getNthControlPointPositionWorld s 1)
          (getNthControlPointPositionWorld s 0)
          (r - distanceBetweenPoints (getNthControlPointPositionWorld s 0)
            (getNthControlPointPositionWorld s 1) / 2) := by
      rw [hset]
      refine getNth_setNth_self _ 0 _ ?_
      rw [setNthControlPointPositionWorld]
      simp only [setPosAux_length]
      omega
    rw [h0, h1, findLinear_eq_linePoint, findLinear_eq_linePoint,
      distance_comm (getNthControlPointPositionWorld s 1) (getNthControlPointPositionWorld s 0),
      linePoint_flip]
    have h2t : (1 + (r - distanceBetweenPoints (getNthControlPointPositionWorld s 0)
          (getNthControlPointPositionWorld s 1) / 2) /
          distanceBetweenPoints (getNthControlPointPositionWorld s 0)
            (getNthControlPointPositionWorld s 1)) -
        (1 - (1 + (r - distanceBetweenPoints (getNthControlPointPositionWorld s 0)
          (getNthControlPointPositionWorld s 1) / 2) /
          distanceBetweenPoints (getNthControlPointPositionWorld s 0)
            (getNthControlPointPositionWorld s 1))) =
        2 * r / distanceBetweenPoints (getNthControlPointPositionWorld s 0)
          (getNthControlPointPositionWorld s 1) := by
      field_simp
      ring
    have hle : (1 - (1 + (r - distanceBetweenPoints (getNthControlPointPositionWorld s 0)
          (getNthControlPointPositionWorld s 1) / 2) /
          distanceBetweenPoints (getNthControlPointPositionWorld s 0)
            (getNthControlPointPositionWorld s 1))) ≤
        (1 + (r - distanceBetweenPoints (getNthControlPointPositionWorld s 0)
          (getNthControlPointPositionWorld s 1) / 2) /
          distanceBetweenPoints (getNthControlPointPositionWorld s 0)
            (getNthControlPointPositionWorld s 1)) := by
      have hq : 0 ≤ 2 * r / distanceBetweenPoints (getNthControlPointPositionWorld s 0)
          (getNthControlPointPositionWorld s 1) := by positivity
      linarith [h2t, hq]
    constructor
    · rw [distance_linePoint _ _ _ _ hle, h2t]
      field_simp
    · rw [midPoint_linePoint]
      have hparam : ((1 - (1 + (r - distanceBetweenPoints (getNthControlPointPositionWorld s 0)
            (getNthControlPointPositionWorld s 1) / 2) /
            distanceBetweenPoints (getNthControlPointPositionWorld s 0)
              (getNthControlPointPositionWorld s 1))) +
          (1 + (r - distanceBetweenPoints (getNthControlPointPositionWorld s 0)
            (getNthControlPointPositionWorld s 1) / 2) /
            distanceBetweenPoints (getNthControlPointPositionWorld s 0)
              (getNthControlPointPositionWorld s 1))) / 2 = 1 / 2 := by
        ring
      rw [hparam, ← midPoint_eq_linePoint]

/-- C5 witness: the theorem at the spec's own example — a `Centered` sphere
with `p0 = (0,0,0)`, `p1 = (10,0,0)` and `SetRadius(5)`. -/
theorem C5_set_radius_readback_witness :
    c5sphere.shapeName ≠ Disk ∧ (0 : ℝ) < 5 ∧
    2 ≤ c5sphere.controlPoints.length ∧
    getNthControlPointPositionWorld c5sphere 0 ≠
      getNthControlPointPositionWorld c5sphere 1 ∧
    (setRadius c5sphere 5).2 = false ∧
    getNthControlPointPositionWorld (setRadius c5sphere 5).1 0 =
      getNthControlPointPositionWorld c5sphere 0 ∧
    distanceBetweenPoints (getNthControlPointPositionWorld (setRadius c5sphere 5).1 0)
      (getNthControlPointPositionWorld (setRadius c5sphere 5).1 1) = 5 := by
  have hne : getNthControlPointPositionWorld c5sphere 0 ≠
      getNthControlPointPositionWorld c5sphere 1 := by
    have ha : getNthControlPointPositionWorld c5sphere 0 = ⟨0, 0, 0⟩ := rfl
    have hb : getNthControlPointPositionWorld c5sphere 1 = ⟨10, 0, 0⟩ := rfl
    rw [ha, hb]
    intro h
    have hx := congrArg Vec3.x h
    norm_num at hx
  have h := C5_set_radius_readback c5sphere 5 (by decide) (by norm_num) (by decide) hne
  exact ⟨by decide, by norm_num, by decide, hne, h.1, (h.2.1 rfl).1, (h.2.1 rfl).2⟩

/-! ### Claim C6 -/

theorem pair_resize_distance (P0 P1 : Vec3) (r : ℝ) (hne : P0 ≠ P1) (hr : 0 < r) :
    distanceBetweenPoints
      (findLinearCoordinateByDistance (midPoint P0 P1) P0
        (r - distanceBetweenPoints P0 P1 / 2))
      (findLinearCoordinateByDistance (midPoint P0 P1) P1
        (r - distanceBetweenPoints P0 P1 / 2)) = 2 * r := by
  have hL : 0 < distanceBetweenPoints P0 P1 := distance_pos_of_ne hne
  have hLne : distanceBetweenPoints P0 P1 ≠ 0 := ne_of_gt hL
  have hM0 : distanceBetweenPoints (midPoint P0 P1) P0 =
      distanceBetweenPoints P0 P1 / 2 := by
    rw [midPoint_eq_linePoint, distance_comm, distance_base_linePoint _ _ _ (by norm_num)]
    ring
  have hM1 : distanceBetweenPoints (midPoint P0 P1) P1 =
      distanceBetweenPoints P0 P1 / 2 := by
    rw [midPoint_eq_linePoint, distance_linePoint_right _ _ _ (by norm_num)]
    ring
  have hk : 1 + (r - distanceBetweenPoints P0 P1 / 2) /
      (distanceBetweenPoints P0 P1 / 2) = 2 * r / distanceBetweenPoints P0 P1 := by
    field_simp
    ring
  rw [findLinear_eq_linePoint, findLinear_eq_linePoint, hM0, hM1, hk,
    linePoint_from_mid_left, linePoint_from_mid_right,
    distance_linePoint _ _ _ _ (by
      have hq : 0 ≤ 2 * r / distanceBetweenPoints P0 P1 := by positivity
      linarith)]
  field_simp
  ring

theorem pair_resize_midpoint (P0 P1 : Vec3) (r : ℝ) :
    midPoint
      (findLinearCoordinateByDistance (midPoint P0 P1) P0
        (r - distanceBetweenPoints P0 P1 / 2))
      (findLinearCoordinateByDistance (midPoint P0 P1) P1
        (r - distanceBetweenPoints P0 P1 / 2)) = midPoint P0 P1 := by
  have hM0 : distanceBetweenPoints (midPoint P0 P1) P0 =
      distanceBetweenPoints P0 P1 / 2 := by
    rw [midPoint_eq_linePoint, distance_comm, distance_base_linePoint _ _ _ (by norm_num)]
    ring
  have hM1 : distanceBetweenPoints (midPoint P0 P1) P1 =
      distanceBetweenPoints P0 P1 / 2 := by
    rw [midPoint_eq_linePoint, distance_linePoint_right _ _ _ (by norm_num)]
    ring
  rw [findLinear_eq_linePoint, findLinear_eq_linePoint, hM0, hM1,
    linePoint_from_mid_left, linePoint_from_mid_right, midPoint_linePoint]
  rw [show ((1 - (1 + (r - distanceBetweenPoints P0 P1 / 2) /
        (distanceBetweenPoints P0 P1 / 2))) / 2 +
      (1 + (1 + (r - distanceBetweenPoints P0 P1 / 2) /
        (distanceBetweenPoints P0 P1 / 2))) / 2) / 2 = 1 / 2 by ring]
  rw [← midPoint_eq_linePoint]

/-- C6: on a Tube state where `GetRadiusAtSegment(n)` succeeds at a valid
even `n` (no undefined points, at least 4 defined, even total, `n` in
range) with distinct pair points, and `r > 0`: `SetRadiusAtSegment(n, r)`
succeeds, reading the segment radius back afterwards yields `r`, and the
midpoint of the pair `(n, n+1)` is unchanged. -/
theorem C6_tube_segment_radius_readback (s : ShapeNode) (n : ℕ) (r : ℝ)
    (hT : s.shapeName = Tube)
    (hU : getNumberOfUndefinedControlPoints s = 0)
    (h4 : 4 ≤ getNumberOfDefinedControlPoints s)
    (hev : getNumberOfDefinedControlPoints s % 2 = 0)
    (hn : n < getNumberOfDefinedControlPoints s)
    (hne : n % 2 = 0)
    (hpair : getNthControlPointPositionWorld s n ≠
      getNthControlPointPositionWorld s (n + 1))
    (hr : 0 < r) :
    (setRadiusAtNthControlPoint s (n : ℤ) r).2 = false ∧
    getRadiusAtNthControlPoint (setRadiusAtNthControlPoint s (n : ℤ) r).1 (n : ℤ) = r ∧
    midPoint
        (getNthControlPointPositionWorld (setRadiusAtNthControlPoint s (n : ℤ) r).1 n)
        (getNthControlPointPositionWorld (setRadiusAtNthControlPoint s (n : ℤ) r).1 (n + 1)) =
      midPoint (getNthControlPointPositionWorld s n)
        (getNthControlPointPositionWorld s (n + 1)) := by
  have hlen : s.controlPoints.length = getNumberOfDefinedControlPoints s := by
    have h := definedCount_add_undefinedCount s
    unfold getNumberOfControlPoints at h
    omega
  have hnlt : n < s.controlPoints.length := by omega
  have hn1lt : n + 1 < s.controlPoints.length := by omega
  have hgc : ¬(((n : ℤ)) < 0 ∨ 0 < getNumberOfUndefinedControlPoints s
      ∨ getNumberOfDefinedControlPoints s < 4
      ∨ getNumberOfDefinedControlPoints s % 2 ≠ 0
      ∨ (getNumberOfDefinedControlPoints s : ℤ) ≤ (n : ℤ)) := by
    omega
  have hmod : ((n : ℕ) : ℤ) % 2 = 0 := by omega
  have hget : getRadiusAtNthControlPoint s (n : ℤ) =
      distanceBetweenPoints (getNthControlPointPositionWorld s n)
        (getNthControlPointPositionWorld s (n + 1)) / 2 := by
    simp only [getRadiusAtNthControlPoint]
    rw [if_neg (by simp [hT]), if_neg hgc, if_pos hmod, if_pos hmod]
    simp only [Int.toNat_natCast]
  have hdpos : 0 < distanceBetweenPoints (getNthControlPointPositionWorld s n)
      (getNthControlPointPositionWorld s (n + 1)) := distance_pos_of_ne hpair
  have hcurpos : 0 < getRadiusAtNthControlPoint s (n : ℤ) := by
    rw [hget]
    linarith
  have hset : setRadiusAtNthControlPoint s (n : ℤ) r =
      (setNthControlPointPositionWorld
        (setNthControlPointPositionWorld s n
          (findLinearCoordinateByDistance
            (midPoint (getNthControlPointPositionWorld s n)
              (getNthControlPointPositionWorld s (n + 1)))
            (getNthControlPointPositionWorld s n)
            (r - distanceBetweenPoints (getNthControlPointPositionWorld s n)
              (getNthControlPointPositionWorld s (n + 1)) / 2)))
        (n + 1)
        (findLinearCoordinateByDistance
          (midPoint (getNthControlPointPositionWorld s n)
            (getNthControlPointPositionWorld s (n + 1)))
          (getNthControlPointPositionWorld s (n + 1))
          (r - distanceBetweenPoints (getNthControlPointPositionWorld s n)
            (getNthControlPointPositionWorld s (n + 1)) / 2)), false) := by
    simp only [setRadiusAtNthControlPoint]
    rw [if_neg (not_le.mpr hr), if_neg (not_le.mpr hcurpos), hget,
      if_pos hmod, if_pos hmod, if_pos hmod]
    simp only [Int.toNat_natCast]
  have hp1 : getNthControlPointPositionWorld (setRadiusAtNthControlPoint s (n : ℤ) r).1 n =
      findLinearCoordinateByDistance
        (midPoint (getNthControlPointPositionWorld s n)
          (getNthControlPointPositionWorld s (n + 1)))
        (getNthControlPointPositionWorld s n)
        (r - distanceBetweenPoints (getNthControlPointPositionWorld s n)
          (getNthControlPointPositionWorld s (n + 1)) / 2) := by
    rw [hset]
    rw [getNth_setNth_ne _ (n + 1) n _ (by omega)]
    exact getNth_setNth_self s n _ hnlt
  have hp2 : getNthControlPointPositionWorld (setRadiusAtNthControlPoint s (n : ℤ) r).1 (n + 1) =
      findLinearCoordinateByDistance
        (midPoint (getNthControlPointPositionWorld s n)
          (getNthControlPointPositionWorld s (n + 1)))
        (getNthControlPointPositionWorld s (n + 1))
        (r - distanceBetweenPoints (getNthControlPointPositionWorld s n)
          (getNthControlPointPositionWorld s (n + 1)) / 2) := by
    rw [hset]
    refine getNth_setNth_self _ (n + 1) _ ?_
    simp only [setNthControlPointPositionWorld, setPosAux_length]
    exact hn1lt
  refine ⟨by rw [hset], ?_, ?_⟩
  · have hT' : (setRadiusAtNthControlPoint s (n : ℤ) r).1.shapeName = Tube := by
      rw [hset]
      exact hT
    have hU' : getNumberOfUndefinedControlPoints (setRadiusAtNthControlPoint s (n : ℤ) r).1 =
        getNumberOfUndefinedControlPoints s := by
      rw [hset]
      rw [setNth_undefinedCount, setNth_undefinedCount]
    have hD' : getNumberOfDefinedControlPoints (setRadiusAtNthControlPoint s (n : ℤ) r).1 =
        getNumberOfDefinedControlPoints s := by
      rw [hset]
      rw [setNth_definedCount, setNth_definedCount]
    have hgc' : ¬(((n : ℤ)) < 0
        ∨ 0 < getNumberOfUndefinedControlPoints (setRadiusAtNthControlPoint s (n : ℤ) r).1
        ∨ getNumberOfDefinedControlPoints (setRadiusAtNthControlPoint s (n : ℤ) r).1 < 4
        ∨ getNumberOfDefinedControlPoints (setRadiusAtNthControlPoint s (n : ℤ) r).1 % 2 ≠ 0
        ∨ (getNumberOfDefinedControlPoints (setRadiusAtNthControlPoint s (n : ℤ) r).1 : ℤ) ≤
          (n : ℤ)) := by
      rw [hU', hD']
      omega
    have hget' : getRadiusAtNthControlPoint (setRadiusAtNthControlPoint s (n : ℤ) r).1 (n : ℤ) =
        distanceBetweenPoints
          (getNthControlPointPositionWorld (setRadiusAtNthControlPoint s (n : ℤ) r).1 n)
          (getNthControlPointPositionWorld (setRadiusAtNthControlPoint s (n : ℤ) r).1 (n + 1)) /
          2 := by
      simp only [getRadiusAtNthControlPoint]
      rw [if_neg (by simp [hT']), if_neg hgc', if_pos hmod, if_pos hmod]
      simp only [Int.toNat_natCast]
    rw [hget', hp1, hp2, pair_resize_distance _ _ _ hpair hr]
    ring
  · rw [hp1, hp2, pair_resize_midpoint _ _ r]

/-- C6 witness: the theorem at the concrete two-pair tube, segment `n = 0`
(current radius 1), resized to `r = 3`. -/
theorem C6_tube_segment_radius_readback_witness :
    c6tube.shapeName = Tube ∧
    getNumberOfUndefinedControlPoints c6tube = 0 ∧
    4 ≤ getNumberOfDefinedControlPoints c6tube ∧
    getNumberOfDefinedControlPoints c6tube % 2 = 0 ∧
    0 < getNumberOfDefinedControlPoints c6tube ∧
    getNthControlPointPositionWorld c6tube 0 ≠
      getNthControlPointPositionWorld c6tube 1 ∧
    (setRadiusAtNthControlPoint c6tube 0 3).2 = false ∧
    getRadiusAtNthControlPoint (setRadiusAtNthControlPoint c6tube 0 3).1 0 = 3 ∧
    midPoint
        (getNthControlPointPositionWorld (setRadiusAtNthControlPoint c6tube 0 3).1 0)
        (getNthControlPointPositionWorld (setRadiusAtNthControlPoint c6tube 0 3).1 1) =
      midPoint (getNthControlPointPositionWorld c6tube 0)
        (getNthControlPointPositionWorld c6tube 1) := by
  have hpair : getNthControlPointPositionWorld c6tube 0 ≠
      getNthControlPointPositionWorld c6tube 1 := by
    have ha : getNthControlPointPositionWorld c6tube 0 = ⟨0, 0, 0⟩ := rfl
    have hb : getNthControlPointPositionWorld c6tube 1 = ⟨2, 0, 0⟩ := rfl
    rw [ha, hb]
    intro h
    have hx := congrArg Vec3.x h
    norm_num at hx
  have h := C6_tube_segment_radius_readback c6tube 0 3 rfl (by decide) (by decide)
    (by decide) (by decide) (by decide) hpair (by norm_num)
  exact ⟨rfl, by decide, by decide, by decide, by decide, hpair, h.1,
    by exact_mod_cast h.2.1, h.2.2⟩

/-! ### Claim C3 -/

theorem describe_eval (s : ShapeNode) (hD : s.shapeName = Disk)
    (h3 : getNumberOfDefinedControlPoints s = 3) :
    describeDiskPointSpacing s =
      (if distanceBetweenPoints (getNthControlPointPositionWorld s 0)
            (getNthControlPointPositionWorld s 1) ≤
          distanceBetweenPoints (getNthControlPointPositionWorld s 0)
            (getNthControlPointPositionWorld s 2) then
        some (getNthControlPointPositionWorld s 1,
          getNthControlPointPositionWorld s 2,
          distanceBetweenPoints (getNthControlPointPositionWorld s 0)
            (getNthControlPointPositionWorld s 1),
          distanceBetweenPoints (getNthControlPointPositionWorld s 0)
            (getNthControlPointPositionWorld s 2))
      else
        some (getNthControlPointPositionWorld s 2,
          getNthControlPointPositionWorld s 1,
          distanceBetweenPoints (getNthControlPointPositionWorld s 0)
            (getNthControlPointPositionWorld s 2),
          distanceBetweenPoints (getNthControlPointPositionWorld s 0)
            (getNthControlPointPositionWorld s 1))) := by
  simp only [describeDiskPointSpacing]
  rw [if_neg (by simp [hD]), if_neg (by simp [h3])]

theorem closest_at_zero (s : ShapeNode) (v : Vec3)
    (h0 : getNthControlPointPositionWorld s 0 = v)
    (hlen : 0 < s.controlPoints.length) :
    getClosestControlPointIndexToPositionWorld s v = 0 :=
  getClosest_eq_first s v 0 hlen h0 (fun m hm => absurd hm (Nat.not_lt_zero m))

theorem closest_at_one (s : ShapeNode) (v : Vec3)
    (h1 : getNthControlPointPositionWorld s 1 = v)
    (h0 : getNthControlPointPositionWorld s 0 ≠ v)
    (hlen : 1 < s.controlPoints.length) :
    getClosestControlPointIndexToPositionWorld s v = 1 := by
  refine getClosest_eq_first s v 1 hlen h1 ?_
  intro m hm
  have hm0 : m = 0 := by omega
  rw [hm0]
  exact h0

theorem closest_at_two (s : ShapeNode) (v : Vec3)
    (h2 : getNthControlPointPositionWorld s 2 = v)
    (h0 : getNthControlPointPositionWorld s 0 ≠ v)
    (h1 : getNthControlPointPositionWorld s 1 ≠ v)
    (hlen : 2 < s.controlPoints.length) :
    getClosestControlPointIndexToPositionWorld s v = 2 := by
  refine getClosest_eq_first s v 2 hlen h2 ?_
  intro m hm
  match m, hm with
  | 0, _ => exact h0
  | 1, _ => exact h1

theorem moved_point_distance (c v : Vec3) (r d : ℝ)
    (hd : distanceBetweenPoints c v = d) (hdpos : 0 < d) (hr : 0 < r) :
    distanceBetweenPoints c (findLinearCoordinateByDistance c v (r - d)) = r := by
  rw [findLinear_eq_linePoint, hd]
  have hk : 1 + (r - d) / d = r / d := by field_simp
  rw [hk, distance_base_linePoint _ _ _ (by positivity), hd]
  field_simp

theorem moved_point_degenerate (c v : Vec3) (d : ℝ) (hv : c = v) :
    findLinearCoordinateByDistance c v d = c := by
  rw [← hv, findLinear_eq_linePoint, linePoint_self]

theorem describe_min_max (s : ShapeNode) (cp fp : Vec3) (ir orr : ℝ)
    (h : describeDiskPointSpacing s = some (cp, fp, ir, orr)) :
    ir = min (distanceBetweenPoints (getNthControlPointPositionWorld s 0)
          (getNthControlPointPositionWorld s 1))
        (distanceBetweenPoints (getNthControlPointPositionWorld s 0)
          (getNthControlPointPositionWorld s 2)) ∧
    orr = max (distanceBetweenPoints (getNthControlPointPositionWorld s 0)
          (getNthControlPointPositionWorld s 1))
        (distanceBetweenPoints (getNthControlPointPositionWorld s 0)
          (getNthControlPointPositionWorld s 2)) := by
  simp only [describeDiskPointSpacing] at h
  by_cases h1 : s.shapeName ≠ Disk
  · rw [if_pos h1] at h
    exact Option.noConfusion h
  rw [if_neg h1] at h
  by_cases h3 : getNumberOfDefinedControlPoints s ≠ 3
  · rw [if_pos h3] at h
    exact Option.noConfusion h
  rw [if_neg h3] at h
  by_cases hle : distanceBetweenPoints (getNthControlPointPositionWorld s 0)
      (getNthControlPointPositionWorld s 1) ≤
    distanceBetweenPoints (getNthControlPointPositionWorld s 0)
      (getNthControlPointPositionWorld s 2)
  · rw [if_pos hle] at h
    simp only [Option.some.injEq, Prod.mk.injEq] at h
    obtain ⟨_, _, hir, horr⟩ := h
    exact ⟨by rw [← hir, min_eq_left hle], by rw [← horr, max_eq_right hle]⟩
  · rw [if_neg hle] at h
    simp only [Option.some.injEq, Prod.mk.injEq] at h
    obtain ⟨_, _, hir, horr⟩ := h
    have hlt := le_of_lt (not_le.mp hle)
    exact ⟨by rw [← hir, min_eq_right hlt], by rw [← horr, max_eq_left hlt]⟩

theorem setInnerRadius_keeps_order (s : ShapeNode) (r : ℝ)
    (hsucc : (setInnerRadius s r).2 = false) :
    ∀ cp fp ir orr,
      describeDiskPointSpacing (setInnerRadius s r).1 = some (cp, fp, ir, orr) →
      ir < orr := by
  intro cp fp ir orr hdesc
  by_cases h1 : s.shapeName = Disk
  case neg => simp [setInnerRadius, h1] at hsucc
  by_cases h2 : r ≤ 0
  case pos => simp [setInnerRadius, h1, h2] at hsucc
  have hr : 0 < r := not_le.mp h2
  rcases hde : describeDiskPointSpacing s with _ | ⟨cp0, fp0, ir0, or0⟩
  · simp [setInnerRadius, h1, h2, hde] at hsucc
  by_cases h4 : or0 ≤ r
  case pos => simp [setInnerRadius, h1, h2, hde, h4] at hsucc
  have hlt : r < or0 := not_le.mp h4
  have hres : (setInnerRadius s r).1 =
      setNthControlPointPositionWorld s
        (getClosestControlPointIndexToPositionWorld s cp0).toNat
        (findLinearCoordinateByDistance (getNthControlPointPositionWorld s 0) cp0
          (r - ir0)) := by
    simp only [setInnerRadius, hde]
    rw [if_neg (by simp [h1]), if_neg h2, if_neg h4]
  have h3 : getNumberOfDefinedControlPoints s = 3 := by
    by_contra hc
    simp only [describeDiskPointSpacing] at hde
    rw [if_neg (by simp [h1]), if_pos hc] at hde
    exact Option.noConfusion hde
  have hlen3 : 3 ≤ s.controlPoints.length := by
    have h := definedCount_le_length s
    unfold getNumberOfControlPoints at h
    omega
  rw [describe_eval s h1 h3] at hde
  by_cases hle : distanceBetweenPoints (getNthControlPointPositionWorld s 0)
      (getNthControlPointPositionWorld s 1) ≤
    distanceBetweenPoints (getNthControlPointPositionWorld s 0)
      (getNthControlPointPositionWorld s 2)
  · rw [if_pos hle] at hde
    simp only [Option.some.injEq, Prod.mk.injEq] at hde
    obtain ⟨hcp0, hfp0, hir0, hor0⟩ := hde
    subst hcp0
    subst hir0
    subst hor0
    by_cases hz : distanceBetweenPoints (getNthControlPointPositionWorld s 0)
        (getNthControlPointPositionWorld s 1) = 0
    · have hcA : getNthControlPointPositionWorld s 0 =
          getNthControlPointPositionWorld s 1 := (distance_eq_zero_iff _ _).mp hz
      have hidx : getClosestControlPointIndexToPositionWorld s
          (getNthControlPointPositionWorld s 1) = 0 :=
        closest_at_zero s _ hcA (by omega)
      have hw : findLinearCoordinateByDistance (getNthControlPointPositionWorld s 0)
          (getNthControlPointPositionWorld s 1)
          (r - distanceBetweenPoints (getNthControlPointPositionWorld s 0)
            (getNthControlPointPositionWorld s 1)) =
          getNthControlPointPositionWorld s 0 :=
        moved_point_degenerate _ _ _ hcA
      rw [hidx, hw] at hres
      simp only [Int.toNat_zero] at hres
      have hp0 := getNth_setNth_self s 0 (getNthControlPointPositionWorld s 0) (by omega)
      have hp1 := getNth_setNth_ne s 0 1 (getNthControlPointPositionWorld s 0) (by omega)
      have hp2 := getNth_setNth_ne s 0 2 (getNthControlPointPositionWorld s 0) (by omega)
      rw [hres] at hdesc
      have hmm := describe_min_max _ cp fp ir orr hdesc
      rw [hp0, hp1, hp2] at hmm
      rw [hmm.1, hmm.2]
      refine min_lt_max.mpr ?_
      rw [hz]
      exact (lt_trans hr hlt).ne
    · have hdpos : 0 < distanceBetweenPoints (getNthControlPointPositionWorld s 0)
          (getNthControlPointPositionWorld s 1) :=
        lt_of_le_of_ne (distance_nonneg _ _) (Ne.symm hz)
      have hcne : getNthControlPointPositionWorld s 0 ≠
          getNthControlPointPositionWorld s 1 :=
        fun hcon => hz ((distance_eq_zero_iff _ _).mpr hcon)
      have hidx : getClosestControlPointIndexToPositionWorld s
          (getNthControlPointPositionWorld s 1) = 1 :=
        closest_at_one s _ rfl hcne (by omega)
      rw [hidx] at hres
      simp only [Int.toNat_one] at hres
      have hp0 := getNth_setNth_ne s 1 0
        (findLinearCoordinateByDistance (getNthControlPointPositionWorld s 0)
          (getNthControlPointPositionWorld s 1)
          (r - distanceBetweenPoints (getNthControlPointPositionWorld s 0)
            (getNthControlPointPositionWorld s 1))) (by omega)
      have hp1 := getNth_setNth_self s 1
        (findLinearCoordinateByDistance (getNthControlPointPositionWorld s 0)
          (getNthControlPointPositionWorld s 1)
          (r - distanceBetweenPoints (getNthControlPointPositionWorld s 0)
            (getNthControlPointPositionWorld s 1))) (by omega)
      have hp2 := getNth_setNth_ne s 1 2
        (findLinearCoordinateByDistance (getNthControlPointPositionWorld s 0)
          (getNthControlPointPositionWorld s 1)
          (r - distanceBetweenPoints (getNthControlPointPositionWorld s 0)
            (getNthControlPointPositionWorld s 1))) (by omega)
      have hD2 : distanceBetweenPoints (getNthControlPointPositionWorld s 0)
          (findLinearCoordinateByDistance (getNthControlPointPositionWorld s 0)
            (getNthControlPointPositionWorld s 1)
            (r - distanceBetweenPoints (getNthControlPointPositionWorld s 0)
              (getNthControlPointPositionWorld s 1))) = r :=
        moved_point_distance _ _ r _ rfl hdpos hr
      rw [hres] at hdesc
      have hmm := describe_min_max _ cp fp ir orr hdesc
      rw [hp0, hp1, hp2, hD2] at hmm
      rw [hmm.1, hmm.2]
      exact min_lt_max.mpr (ne_of_lt hlt)
  · rw [if_neg hle] at hde
    simp only [Option.some.injEq, Prod.mk.injEq] at hde
    obtain ⟨hcp0, hfp0, hir0, hor0⟩ := hde
    subst hcp0
    subst hir0
    subst hor0
    have hgt : distanceBetweenPoints (getNthControlPointPositionWorld s 0)
        (getNthControlPointPositionWorld s 2) <
      distanceBetweenPoints (getNthControlPointPositionWorld s 0)
        (getNthControlPointPositionWorld s 1) := not_le.mp hle
    by_cases hz : distanceBetweenPoints (getNthControlPointPositionWorld s 0)
        (getNthControlPointPositionWorld s 2) = 0
    · have hcB : getNthControlPointPositionWorld s 0 =
          getNthControlPointPositionWorld s 2 := (distance_eq_zero_iff _ _).mp hz
      have hidx : getClosestControlPointIndexToPositionWorld s
          (getNthControlPointPositionWorld s 2) = 0 :=
        closest_at_zero s _ hcB (by omega)
      have hw : findLinearCoordinateByDistance (getNthControlPointPositionWorld s 0)
          (getNthControlPointPositionWorld s 2)
          (r - distanceBetweenPoints (getNthControlPointPositionWorld s 0)
            (getNthControlPointPositionWorld s 2)) =
          getNthControlPointPositionWorld s 0 :=
        moved_point_degenerate _ _ _ hcB
      rw [hidx, hw] at hres
      simp only [Int.toNat_zero] at hres
      have hp0 := getNth_setNth_self s 0 (getNthControlPointPositionWorld s 0) (by omega)
      have hp1 := getNth_setNth_ne s 0 1 (getNthControlPointPositionWorld s 0) (by omega)
      have hp2 := getNth_setNth_ne s 0 2 (getNthControlPointPositionWorld s 0) (by omega)
      rw [hres] at hdesc
      have hmm := describe_min_max _ cp fp ir orr hdesc
      rw [hp0, hp1, hp2] at hmm
      rw [hmm.1, hmm.2]
      refine min_lt_max.mpr ?_
      rw [hz]
      exact (lt_trans hr hlt).ne'
    · have hdpos : 0 < distanceBetweenPoints (getNthControlPointPositionWorld s 0)
          (getNthControlPointPositionWorld s 2) :=
        lt_of_le_of_ne (distance_nonneg _ _) (Ne.symm hz)
      have hcne : getNthControlPointPositionWorld s 0 ≠
          getNthControlPointPositionWorld s 2 :=
        fun hcon => hz ((distance_eq_zero_iff _ _).mpr hcon)
      have hAne : getNthControlPointPositionWorld s 1 ≠
          getNthControlPointPositionWorld s 2 := by
        intro hcon
        rw [hcon] at hgt
        exact lt_irrefl _ hgt
      have hidx : getClosestControlPointIndexToPositionWorld s
          (getNthControlPointPositionWorld s 2) = 2 :=
        closest_at_two s _ rfl hcne hAne (by omega)
      rw [hidx] at hres
      simp only [show ((2 : ℤ)).toNat = 2 from rfl] at hres
      have hp0 := getNth_setNth_ne s 2 0
        (findLinearCoordinateByDistance (getNthControlPointPositionWorld s 0)
          (getNthControlPointPositionWorld s 2)
          (r - distanceBetweenPoints (getNthControlPointPositionWorld s 0)
            (getNthControlPointPositionWorld s 2))) (by omega)
      have hp1 := getNth_setNth_ne s 2 1
        (findLinearCoordinateByDistance (getNthControlPointPositionWorld s 0)
          (getNthControlPointPositionWorld s 2)
          (r - distanceBetweenPoints (getNthControlPointPositionWorld s 0)
            (getNthControlPointPositionWorld s 2))) (by omega)
      have hp2 := getNth_setNth_self s 2
        (findLinearCoordinateByDistance (getNthControlPointPositionWorld s 0)
          (getNthControlPointPositionWorld s 2)
          (r - distanceBetweenPoints (getNthControlPointPositionWorld s 0)
            (getNthControlPointPositionWorld s 2))) (by omega)
      have hD3 : distanceBetweenPoints (getNthControlPointPositionWorld s 0)
          (findLinearCoordinateByDistance (getNthControlPointPositionWorld s 0)
            (getNthControlPointPositionWorld s 2)
            (r - distanceBetweenPoints (getNthControlPointPositionWorld s 0)
              (getNthControlPointPositionWorld s 2))) = r :=
        moved_point_distance _ _ r _ rfl hdpos hr
      rw [hres] at hdesc
      have hmm := describe_min_max _ cp fp ir orr hdesc
      rw [hp0, hp1, hp2, hD3] at hmm
      rw [hmm.1, hmm.2]
      exact min_lt_max.mpr (ne_of_gt hlt)

theorem setOuterRadius_keeps_order (s : ShapeNode) (r : ℝ)
    (hsucc : (setOuterRadius s r).2 = false)
    (hout : ∀ cp fp ir orr,
      describeDiskPointSpacing s = some (cp, fp, ir, orr) → 0 < orr) :
    ∀ cp fp ir orr,
      describeDiskPointSpacing (setOuterRadius s r).1 = some (cp, fp, ir, orr) →
      ir < orr := by
  intro cp fp ir orr hdesc
  by_cases h1 : s.shapeName = Disk
  case neg => simp [setOuterRadius, h1] at hsucc
  by_cases h2 : r ≤ 0
  case pos => simp [setOuterRadius, h1, h2] at hsucc
  have hr : 0 < r := not_le.mp h2
  rcases hde : describeDiskPointSpacing s with _ | ⟨cp0, fp0, ir0, or0⟩
  · simp [setOuterRadius, h1, h2, hde] at hsucc
  by_cases h4 : r ≤ ir0
  case pos => simp [setOuterRadius, h1, h2, hde, h4] at hsucc
  have hgt : ir0 < r := not_le.mp h4
  have hor : 0 < or0 := hout cp0 fp0 ir0 or0 hde
  have hres : (setOuterRadius s r).1 =
      setNthControlPointPositionWorld s
        (getClosestControlPointIndexToPositionWorld s fp0).toNat
        (findLinearCoordinateByDistance (getNthControlPointPositionWorld s 0) fp0
          (r - or0)) := by
    simp only [setOuterRadius, hde]
    rw [if_neg (by simp [h1]), if_neg h2, if_neg h4]
  have h3 : getNumberOfDefinedControlPoints s = 3 := by
    by_contra hc
    simp only [describeDiskPointSpacing] at hde
    rw [if_neg (by simp [h1]), if_pos hc] at hde
    exact Option.noConfusion hde
  have hlen3 : 3 ≤ s.controlPoints.length := by
    have h := definedCount_le_length s
    unfold getNumberOfControlPoints at h
    omega
  rw [describe_eval s h1 h3] at hde
  by_cases hle : distanceBetweenPoints (getNthControlPointPositionWorld s 0)
      (getNthControlPointPositionWorld s 1) ≤
    distanceBetweenPoints (getNthControlPointPositionWorld s 0)
      (getNthControlPointPositionWorld s 2)
  · rw [if_pos hle] at hde
    simp only [Option.some.injEq, Prod.mk.injEq] at hde
    obtain ⟨hcp0, hfp0, hir0, hor0⟩ := hde
    subst hfp0
    subst hir0
    subst hor0
    have hcne : getNthControlPointPositionWorld s 0 ≠
        getNthControlPointPositionWorld s 2 :=
      fun hcon => hor.ne' ((distance_eq_zero_iff _ _).mpr hcon)
    by_cases hAB : getNthControlPointPositionWorld s 1 =
        getNthControlPointPositionWorld s 2
    · have hidx : getClosestControlPointIndexToPositionWorld s
          (getNthControlPointPositionWorld s 2) = 1 :=
        closest_at_one s _ hAB hcne (by omega)
      rw [hidx] at hres
      simp only [Int.toNat_one] at hres
      have hp0 := getNth_setNth_ne s 1 0
        (findLinearCoordinateByDistance (getNthControlPointPositionWorld s 0)
          (getNthControlPointPositionWorld s 2)
          (r - distanceBetweenPoints (getNthControlPointPositionWorld s 0)
            (getNthControlPointPositionWorld s 2))) (by omega)
      have hp1 := getNth_setNth_self s 1
        (findLinearCoordinateByDistance (getNthControlPointPositionWorld s 0)
          (getNthControlPointPositionWorld s 2)
          (r - distanceBetweenPoints (getNthControlPointPositionWorld s 0)
            (getNthControlPointPositionWorld s 2))) (by omega)
      have hp2 := getNth_setNth_ne s 1 2
        (findLinearCoordinateByDistance (getNthControlPointPositionWorld s 0)
          (getNthControlPointPositionWorld s 2)
          (r - distanceBetweenPoints (getNthControlPointPositionWorld s 0)
            (getNthControlPointPositionWorld s 2))) (by omega)
      have hD2 : distanceBetweenPoints (getNthControlPointPositionWorld s 0)
          (findLinearCoordinateByDistance (getNthControlPointPositionWorld s 0)
            (getNthControlPointPositionWorld s 2)
            (r - distanceBetweenPoints (getNthControlPointPositionWorld s 0)
              (getNthControlPointPositionWorld s 2))) = r :=
        moved_point_distance _ _ r _ rfl hor hr
      have hD2eqD3 : distanceBetweenPoints (getNthControlPointPositionWorld s 0)
          (getNthControlPointPositionWorld s 1) =
        distanceBetweenPoints (getNthControlPointPositionWorld s 0)
          (getNthControlPointPositionWorld s 2) := by
        rw [hAB]
      rw [hres] at hdesc
      have hmm := describe_min_max _ cp fp ir orr hdesc
      rw [hp0, hp1, hp2, hD2] at hmm
      rw [hmm.1, hmm.2]
      refine min_lt_max.mpr ?_
      rw [hD2eqD3] at hgt
      exact (ne_of_gt hgt)
    · have hidx : getClosestControlPointIndexToPositionWorld s
          (getNthControlPointPositionWorld s 2) = 2 :=
        closest_at_two s _ rfl hcne hAB (by omega)
      rw [hidx] at hres
      simp only [show ((2 : ℤ)).toNat = 2 from rfl] at hres
      have hp0 := getNth_setNth_ne s 2 0
        (findLinearCoordinateByDistance (getNthControlPointPositionWorld s 0)
          (getNthControlPointPositionWorld s 2)
          (r - distanceBetweenPoints (getNthControlPointPositionWorld s 0)
            (getNthControlPointPositionWorld s 2))) (by omega)
      have hp1 := getNth_setNth_ne s 2 1
        (findLinearCoordinateByDistance (getNthControlPointPositionWorld s 0)
          (getNthControlPointPositionWorld s 2)
          (r - distanceBetweenPoints (getNthControlPointPositionWorld s 0)
            (getNthControlPointPositionWorld s 2))) (by omega)
      have hp2 := getNth_setNth_self s 2
        (findLinearCoordinateByDistance (getNthControlPointPositionWorld s 0)
          (getNthControlPointPositionWorld s 2)
          (r - distanceBetweenPoints (getNthControlPointPositionWorld s 0)
            (getNthControlPointPositionWorld s 2))) (by omega)
      have hD3 : distanceBetweenPoints (getNthControlPointPositionWorld s 0)
          (findLinearCoordinateByDistance (getNthControlPointPositionWorld s 0)
            (getNthControlPointPositionWorld s 2)
            (r - distanceBetweenPoints (getNthControlPointPositionWorld s 0)
              (getNthControlPointPositionWorld s 2))) = r :=
        moved_point_distance _ _ r _ rfl hor hr
      rw [hres] at hdesc
      have hmm := describe_min_max _ cp fp ir orr hdesc
      rw [hp0, hp1, hp2, hD3] at hmm
      rw [hmm.1, hmm.2]
      exact min_lt_max.mpr (ne_of_lt hgt)
  · rw [if_neg hle] at hde
    simp only [Option.some.injEq, Prod.mk.injEq] at hde
    obtain ⟨hcp0, hfp0, hir0, hor0⟩ := hde
    subst hfp0
    subst hir0
    subst hor0
    have hcne : getNthControlPointPositionWorld s 0 ≠
        getNthControlPointPositionWorld s 1 :=
      fun hcon => hor.ne' ((distance_eq_zero_iff _ _).mpr hcon)
    have hidx : getClosestControlPointIndexToPositionWorld s
        (getNthControlPointPositionWorld s 1) = 1 :=
      closest_at_one s _ rfl hcne (by omega)
    rw [hidx] at hres
    simp only [Int.toNat_one] at hres
    have hp0 := getNth_setNth_ne s 1 0
      (findLinearCoordinateByDistance (getNthControlPointPositionWorld s 0)
        (getNthControlPointPositionWorld s 1)
        (r - distanceBetweenPoints (getNthControlPointPositionWorld s 0)
          (getNthControlPointPositionWorld s 1))) (by omega)
    have hp1 := getNth_setNth_self s 1
      (findLinearCoordinateByDistance (getNthControlPointPositionWorld s 0)
        (getNthControlPointPositionWorld s 1)
        (r - distanceBetweenPoints (getNthControlPointPositionWorld s 0)
          (getNthControlPointPositionWorld s 1))) (by omega)
    have hp2 := getNth_setNth_ne s 1 2
      (findLinearCoordinateByDistance (getNthControlPointPositionWorld s 0)
        (getNthControlPointPositionWorld s 1)
        (r - distanceBetweenPoints (getNthControlPointPositionWorld s 0)
          (getNthControlPointPositionWorld s 1))) (by omega)
    have hD2 : distanceBetweenPoints (getNthControlPointPositionWorld s 0)
        (findLinearCoordinateByDistance (getNthControlPointPositionWorld s 0)
          (getNthControlPointPositionWorld s 1)
          (r - distanceBetweenPoints (getNthControlPointPositionWorld s 0)
            (getNthControlPointPositionWorld s 1))) = r :=
      moved_point_distance _ _ r _ rfl hor hr
    rw [hres] at hdesc
    have hmm := describe_min_max _ cp fp ir orr hdesc
    rw [hp0, hp1, hp2, hD2] at hmm
    rw [hmm.1, hmm.2]
    exact min_lt_max.mpr (ne_of_gt hgt)

/-- C3 counterexample: the claim as stated fails on the fully degenerate
disk where all three control points coincide. `SetOuterRadius(1)` passes
every check (`1 > 0`, spacing description succeeds with inner = outer = 0,
`1 ≤ innerRadius` is false) and so "succeeds", yet the moved point stays on
the center (the ray has zero length), and afterwards the derived radii are
`inner = outer = 0`, violating the strict ordering. -/
theorem C3_counterexample :
    (setOuterRadius c3degenerate 1).2 = false ∧
    describeDiskPointSpacing (setOuterRadius c3degenerate 1).1 =
      some (⟨0, 0, 0⟩, ⟨0, 0, 0⟩, 0, 0) ∧
    ¬((0 : ℝ) < 0) := by
  have hz : distanceBetweenPoints (⟨0, 0, 0⟩ : Vec3) ⟨0, 0, 0⟩ = 0 :=
    (distance_eq_zero_iff _ _).mpr rfl
  have hde : describeDiskPointSpacing c3degenerate =
      some (⟨0, 0, 0⟩, ⟨0, 0, 0⟩, 0, 0) := by
    rw [describe_eval c3degenerate rfl (by decide)]
    simp only [show getNthControlPointPositionWorld c3degenerate 0 = ⟨0, 0, 0⟩ from rfl,
      show getNthControlPointPositionWorld c3degenerate 1 = ⟨0, 0, 0⟩ from rfl,
      show getNthControlPointPositionWorld c3degenerate 2 = ⟨0, 0, 0⟩ from rfl, hz]
    rw [if_pos (le_refl (0 : ℝ))]
  have hidx : getClosestControlPointIndexToPositionWorld c3degenerate ⟨0, 0, 0⟩ = 0 :=
    closest_at_zero c3degenerate ⟨0, 0, 0⟩ rfl (by decide)
  have hset : setOuterRadius c3degenerate 1 = (c3degenerate, false) := by
    simp only [setOuterRadius, hde]
    rw [if_neg (by decide), if_neg (by norm_num), if_neg (by norm_num), hidx]
    rw [moved_point_degenerate (getNthControlPointPositionWorld c3degenerate 0)
      ⟨0, 0, 0⟩ _ rfl]
    rfl
  refine ⟨by rw [hset], ?_, by norm_num⟩
  rw [hset]
  exact hde

/-- C3 (amended): for every Disk state, after a *successful* `SetInnerRadius(r)`
the derived radii satisfy `innerRadius < outerRadius`; after a successful
`SetOuterRadius(r)` the same holds **provided the current outer radius is
positive** (the lone exception, forced by the counterexample, is the fully
degenerate disk with all three points coincident, where outer = 0).
Moreover `SetInnerRadius` fails when `r ≥ outerRadius` and `SetOuterRadius`
fails when `r ≤ innerRadius`, exactly as claimed. -/
theorem C3_disk_radius_ordering (s : ShapeNode) (r : ℝ) :
    ((setInnerRadius s r).2 = false →
      ∀ cp fp ir orr,
        describeDiskPointSpacing (setInnerRadius s r).1 = some (cp, fp, ir, orr) →
        ir < orr) ∧
    ((setOuterRadius s r).2 = false →
      (∀ cp fp ir orr, describeDiskPointSpacing s = some (cp, fp, ir, orr) → 0 < orr) →
      ∀ cp fp ir orr,
        describeDiskPointSpacing (setOuterRadius s r).1 = some (cp, fp, ir, orr) →
        ir < orr) ∧
    (∀ cp fp ir orr, describeDiskPointSpacing s = some (cp, fp, ir, orr) →
      orr ≤ r → (setInnerRadius s r).2 = true) ∧
    (∀ cp fp ir orr, describeDiskPointSpacing s = some (cp, fp, ir, orr) →
      r ≤ ir → (setOuterRadius s r).2 = true) := by
  refine ⟨fun h => setInnerRadius_keeps_order s r h,
    fun h hout => setOuterRadius_keeps_order s r h hout, ?_, ?_⟩
  · intro cp fp ir orr hde hge
    have h1 : s.shapeName = Disk := by
      by_contra hc
      simp only [describeDiskPointSpacing] at hde
      rw [if_pos hc] at hde
      exact Option.noConfusion hde
    by_cases h2 : r ≤ 0
    · simp only [setInnerRadius, hde]
      rw [if_neg (by simp [h1]), if_pos h2]
    · simp only [setInnerRadius, hde]
      rw [if_neg (by simp [h1]), if_neg h2, if_pos hge]
  · intro cp fp ir orr hde hge
    have h1 : s.shapeName = Disk := by
      by_contra hc
      simp only [describeDiskPointSpacing] at hde
      rw [if_pos hc] at hde
      exact Option.noConfusion hde
    by_cases h2 : r ≤ 0
    · simp only [setOuterRadius, hde]
      rw [if_neg (by simp [h1]), if_pos h2]
    · simp only [setOuterRadius, hde]
      rw [if_neg (by simp [h1]), if_neg h2, if_pos hge]

/-- C3 witness: the amended theorem at the concrete disk with radii 1 and 3
and `SetInnerRadius(2)`, which succeeds and leaves `inner = 2 < 3 = outer`. -/
theorem C3_disk_radius_ordering_witness :
    (setInnerRadius c3disk 2).2 = false ∧
    describeDiskPointSpacing (setInnerRadius c3disk 2).1 =
      some (⟨2, 0, 0⟩, ⟨3, 0, 0⟩, 2, 3) ∧
    (2 : ℝ) < 3 := by
  have d1 : distanceBetweenPoints (⟨0, 0, 0⟩ : Vec3) ⟨1, 0, 0⟩ = 1 := by
    unfold distanceBetweenPoints
    rw [show distance2BetweenPoints (⟨0, 0, 0⟩ : Vec3) ⟨1, 0, 0⟩ = 1 by
      unfold distance2BetweenPoints; norm_num]
    exact Real.sqrt_one
  have d2 : distanceBetweenPoints (⟨0, 0, 0⟩ : Vec3) ⟨2, 0, 0⟩ = 2 := by
    unfold distanceBetweenPoints
    rw [show distance2BetweenPoints (⟨0, 0, 0⟩ : Vec3) ⟨2, 0, 0⟩ = 2 ^ 2 by
      unfold distance2BetweenPoints; norm_num]
    exact Real.sqrt_sq (by norm_num)
  have d3 : distanceBetweenPoints (⟨0, 0, 0⟩ : Vec3) ⟨3, 0, 0⟩ = 3 := by
    unfold distanceBetweenPoints
    rw [show distance2BetweenPoints (⟨0, 0, 0⟩ : Vec3) ⟨3, 0, 0⟩ = 3 ^ 2 by
      unfold distance2BetweenPoints; norm_num]
    exact Real.sqrt_sq (by norm_num)
  have hde : describeDiskPointSpacing c3disk = some (⟨1, 0, 0⟩, ⟨3, 0, 0⟩, 1, 3) := by
    rw [describe_eval c3disk rfl (by decide)]
    simp only [show getNthControlPointPositionWorld c3disk 0 = ⟨0, 0, 0⟩ from rfl,
      show getNthControlPointPositionWorld c3disk 1 = ⟨1, 0, 0⟩ from rfl,
      show getNthControlPointPositionWorld c3disk 2 = ⟨3, 0, 0⟩ from rfl, d1, d3]
    rw [if_pos (by norm_num)]
  have hne01 : getNthControlPointPositionWorld c3disk 0 ≠ (⟨1, 0, 0⟩ : Vec3) := by
    rw [show getNthControlPointPositionWorld c3disk 0 = ⟨0, 0, 0⟩ from rfl]
    intro h
    have hx := congrArg Vec3.x h
    norm_num at hx
  have hidx : getClosestControlPointIndexToPositionWorld c3disk ⟨1, 0, 0⟩ = 1 :=
    closest_at_one c3disk ⟨1, 0, 0⟩ rfl hne01 (by decide)
  have hw : findLinearCoordinateByDistance (⟨0, 0, 0⟩ : Vec3) ⟨1, 0, 0⟩
      ((2 : ℝ) - 1) = ⟨2, 0, 0⟩ := by
    rw [findLinear_eq_linePoint, d1]
    unfold linePoint
    exact Vec3.ext (by norm_num) (by norm_num) (by norm_num)
  have hset : setInnerRadius c3disk 2 =
      ({ c3disk with controlPoints :=
        [⟨⟨0, 0, 0⟩, true⟩, ⟨⟨2, 0, 0⟩, true⟩, ⟨⟨3, 0, 0⟩, true⟩] }, false) := by
    simp only [setInnerRadius, hde]
    rw [if_neg (by decide), if_neg (by norm_num), if_neg (by norm_num), hidx]
    rw [show getNthControlPointPositionWorld c3disk 0 = ⟨0, 0, 0⟩ from rfl, hw]
    rfl
  have hsucc : (setInnerRadius c3disk 2).2 = false := by rw [hset]
  have hdesc : describeDiskPointSpacing (setInnerRadius c3disk 2).1 =
      some (⟨2, 0, 0⟩, ⟨3, 0, 0⟩, 2, 3) := by
    rw [hset]
    rw [describe_eval _ rfl (by decide)]
    simp only [show getNthControlPointPositionWorld
        { c3disk with controlPoints :=
          [⟨⟨0, 0, 0⟩, true⟩, ⟨⟨2, 0, 0⟩, true⟩, ⟨⟨3, 0, 0⟩, true⟩] } 0 =
        ⟨0, 0, 0⟩ from rfl,
      show getNthControlPointPositionWorld
        { c3disk with controlPoints :=
          [⟨⟨0, 0, 0⟩, true⟩, ⟨⟨2, 0, 0⟩, true⟩, ⟨⟨3, 0, 0⟩, true⟩] } 1 =
        ⟨2, 0, 0⟩ from rfl,
      show getNthControlPointPositionWorld
        { c3disk with controlPoints :=
          [⟨⟨0, 0, 0⟩, true⟩, ⟨⟨2, 0, 0⟩, true⟩, ⟨⟨3, 0, 0⟩, true⟩] } 2 =
        ⟨3, 0, 0⟩ from rfl, d2, d3]
    rw [if_pos (by norm_num)]
  exact ⟨hsucc, hdesc,
    (C3_disk_radius_ordering c3disk 2).1 hsucc ⟨2, 0, 0⟩ ⟨3, 0, 0⟩ 2 3 hdesc⟩

end ExtraMarkups
